import Mathlib

/-
Verification of the Prague block-level state transition
(src/src/ethereum/prague/fork.py) against its natural-language
specification.

Modelling conventions:
* `Uint`, `U64` and `U256` quantities are modelled as `Nat`; the source's
  arbitrary-precision non-negative arithmetic with floor division maps to
  `Nat` arithmetic.  Where Python `Uint` subtraction would raise on
  underflow, theorems carry the corresponding side condition.
* Byte strings (`Bytes`, `Hash32`, `Address`, `Bloom`, ...) are lists of
  natural numbers.
* Collaborator modules that are outside `fork.py` (keccak256,
  secp256k1_recover, RLP, tries, the state store interface, the EVM
  interpreter, blob-gas helpers, transaction codecs) are consumed through
  an explicit record of functions `Ext`, mirroring the spec's "external
  interfaces" section.  The fork-level code under verification is
  translated literally from `fork.py`.
* Python in-place mutation of the world state is rendered as explicit
  state passing: each mutating operation consumes and returns a `State`.
-/

namespace EthPrague

abbrev Bytes := List Nat

abbrev Address := List Nat

/-- RLP values: nested byte strings and non-negative integers, as consumed
by the `rlp.encode` collaborator. -/
inductive RLPItem where
  | bytes (bs : Bytes) : RLPItem
  | uint (n : Nat) : RLPItem
  | seq (items : List RLPItem) : RLPItem

/-- Entry of a typed transaction's access list: an address together with
storage keys. -/
structure AccessEntry where
  address : Address
  storage_keys : List Bytes
deriving DecidableEq

/-- EIP-7702 authorization tuple. -/
structure Authorization where
  chain_id : Nat
  address : Address
  nonce : Nat
  y_parity : Nat
  r : Nat
  s : Nat
deriving DecidableEq

structure LegacyTransaction where
  nonce : Nat
  gas_price : Nat
  gas : Nat
  to' : Option Address
  value : Nat
  data : Bytes
  v : Nat
  r : Nat
  s : Nat
deriving DecidableEq

structure AccessListTransaction where
  chain_id : Nat
  nonce : Nat
  gas_price : Nat
  gas : Nat
  to' : Option Address
  value : Nat
  data : Bytes
  access_list : List AccessEntry
  y_parity : Nat
  r : Nat
  s : Nat
deriving DecidableEq

structure FeeMarketTransaction where
  chain_id : Nat
  nonce : Nat
  max_priority_fee_per_gas : Nat
  max_fee_per_gas : Nat
  gas : Nat
  to' : Option Address
  value : Nat
  data : Bytes
  access_list : List AccessEntry
  y_parity : Nat
  r : Nat
  s : Nat
deriving DecidableEq

structure BlobTransaction where
  chain_id : Nat
  nonce : Nat
  max_priority_fee_per_gas : Nat
  max_fee_per_gas : Nat
  gas : Nat
  to' : Option Address
  value : Nat
  data : Bytes
  access_list : List AccessEntry
  max_fee_per_blob_gas : Nat
  blob_versioned_hashes : List Bytes
  y_parity : Nat
  r : Nat
  s : Nat
deriving DecidableEq

structure SetCodeTransaction where
  chain_id : Nat
  nonce : Nat
  max_priority_fee_per_gas : Nat
  max_fee_per_gas : Nat
  gas : Nat
  to' : Option Address
  value : Nat
  data : Bytes
  access_list : List AccessEntry
  authorizations : List Authorization
  y_parity : Nat
  r : Nat
  s : Nat
deriving DecidableEq

/-- The five transaction variants of the Prague fork. -/
inductive Transaction where
  | legacy (t : LegacyTransaction) : Transaction
  | accessList (t : AccessListTransaction) : Transaction
  | feeMarket (t : FeeMarketTransaction) : Transaction
  | blob (t : BlobTransaction) : Transaction
  | setCode (t : SetCodeTransaction) : Transaction
deriving DecidableEq

def Transaction.gas : Transaction → Nat
  | .legacy t => t.gas
  | .accessList t => t.gas
  | .feeMarket t => t.gas
  | .blob t => t.gas
  | .setCode t => t.gas

def Transaction.nonce : Transaction → Nat
  | .legacy t => t.nonce
  | .accessList t => t.nonce
  | .feeMarket t => t.nonce
  | .blob t => t.nonce
  | .setCode t => t.nonce

def Transaction.to' : Transaction → Option Address
  | .legacy t => t.to'
  | .accessList t => t.to'
  | .feeMarket t => t.to'
  | .blob t => t.to'
  | .setCode t => t.to'

def Transaction.value : Transaction → Nat
  | .legacy t => t.value
  | .accessList t => t.value
  | .feeMarket t => t.value
  | .blob t => t.value
  | .setCode t => t.value

def Transaction.data : Transaction → Bytes
  | .legacy t => t.data
  | .accessList t => t.data
  | .feeMarket t => t.data
  | .blob t => t.data
  | .setCode t => t.data

def Transaction.r : Transaction → Nat
  | .legacy t => t.r
  | .accessList t => t.r
  | .feeMarket t => t.r
  | .blob t => t.r
  | .setCode t => t.r

def Transaction.s : Transaction → Nat
  | .legacy t => t.s
  | .accessList t => t.s
  | .feeMarket t => t.s
  | .blob t => t.s
  | .setCode t => t.s

/-- A transaction as it appears in a block body: either a bare legacy
transaction or the byte string of a typed transaction. -/
abbrev TxWire := Sum LegacyTransaction Bytes

/-- Log record produced by the EVM. -/
structure Log where
  address : Address
  topics : List Bytes
  data : Bytes
deriving DecidableEq

/-- Receipt of an executed transaction. -/
structure Receipt where
  succeeded : Bool
  cumulative_gas_used : Nat
  bloom : Bytes
  logs : List Log
deriving DecidableEq

structure Withdrawal where
  index : Nat
  validator_index : Nat
  address : Address
  amount : Nat
deriving DecidableEq

structure Header where
  parent_hash : Bytes
  ommers_hash : Bytes
  coinbase : Address
  state_root : Bytes
  transactions_root : Bytes
  receipt_root : Bytes
  bloom : Bytes
  difficulty : Nat
  number : Nat
  gas_limit : Nat
  gas_used : Nat
  timestamp : Nat
  extra_data : Bytes
  prev_randao : Bytes
  nonce : Bytes
  base_fee_per_gas : Nat
  withdrawals_root : Bytes
  blob_gas_used : Nat
  excess_blob_gas : Nat
  parent_beacon_block_root : Bytes
  requests_hash : Bytes
deriving DecidableEq

structure Block where
  header : Header
  transactions : List TxWire
  ommers : List Header
  withdrawals : List Withdrawal
deriving DecidableEq

/-- Nonce, balance and code of an account.  Storage is kept separately in
`State`. -/
structure Account where
  nonce : Nat
  balance : Nat
  code : Bytes
deriving DecidableEq

def EMPTY_ACCOUNT : Account := { nonce := 0, balance := 0, code := [] }

/-- World state: a finite map from addresses to accounts (first matching
entry wins) together with account storage. -/
structure State where
  accounts : List (Address × Account)
  storage : List ((Address × Bytes) × Bytes)
deriving DecidableEq

def lookupAccount : List (Address × Account) → Address → Option Account
  | [], _ => none
  | p :: rest, a => if p.1 = a then some p.2 else lookupAccount rest a

def removeAccount : List (Address × Account) → Address → List (Address × Account)
  | [], _ => []
  | p :: rest, a => if p.1 = a then removeAccount rest a else p :: removeAccount rest a

def removeStorage : List ((Address × Bytes) × Bytes) → Address → List ((Address × Bytes) × Bytes)
  | [], _ => []
  | q :: rest, a => if q.1.1 = a then removeStorage rest a else q :: removeStorage rest a

/-- Source `get_account`: read an account, defaulting to the empty account. -/
def State.get_account (st : State) (a : Address) : Account :=
  match lookupAccount st.accounts a with
  | some acc => acc
  | none => EMPTY_ACCOUNT

/-- Whether an account is present in the state. -/
def State.account_exists (st : State) (a : Address) : Bool :=
  (lookupAccount st.accounts a).isSome

def State.set_account (st : State) (a : Address) (acc : Account) : State :=
  { st with accounts := (a, acc) :: st.accounts }

/-- Source `set_account_balance` collaborator. -/
def State.set_account_balance (st : State) (a : Address) (balance : Nat) : State :=
  st.set_account a { st.get_account a with balance := balance }

/-- Source `increment_nonce` collaborator. -/
def State.increment_nonce (st : State) (a : Address) : State :=
  st.set_account a { st.get_account a with nonce := (st.get_account a).nonce + 1 }

/-- Source `destroy_account` collaborator: remove the account and its storage. -/
def State.destroy_account (st : State) (a : Address) : State :=
  { accounts := removeAccount st.accounts a, storage := removeStorage st.storage a }

/-- Source `account_exists_and_is_empty` collaborator. -/
def State.account_exists_and_is_empty (st : State) (a : Address) : Bool :=
  st.account_exists a && decide (st.get_account a = EMPTY_ACCOUNT)

/-- Source `destroy_touched_empty_accounts` collaborator: destroy every touched
account that exists and is empty. -/
def State.destroy_touched_empty_accounts (st : State) (touched : List Address) : State :=
  touched.foldl
    (fun s a => if s.account_exists_and_is_empty a then s.destroy_account a else s) st

/-- Per-block and per-transaction execution environment
(`vm.Environment`); the mutable `state` and the per-transaction
`transient_storage` of the Python dataclass are threaded explicitly
instead of being stored in the record. -/
structure Env where
  caller : Address
  block_hashes : List Bytes
  origin : Address
  coinbase : Address
  number : Nat
  gas_limit : Nat
  base_fee_per_gas : Nat
  gas_price : Nat
  time : Nat
  prev_randao : Bytes
  chain_id : Nat
  excess_blob_gas : Nat
  blob_versioned_hashes : List Bytes
deriving DecidableEq

/-- EVM call frame (`vm.Message`); `parent_evm` (always `None` at this
level) is omitted. -/
structure Message where
  caller : Address
  target : Option Address
  gas : Nat
  value : Nat
  data : Bytes
  code : Bytes
  depth : Nat
  current_target : Address
  code_address : Address
  should_transfer_value : Bool
  is_static : Bool
  accessed_addresses : List Address
  accessed_storage_keys : List (Address × Bytes)
  authorizations : List Authorization
deriving DecidableEq

/-- Result of `process_message_call`, the EVM interpreter collaborator. -/
structure MessageCallOutput where
  gas_left : Nat
  refund_counter : Nat
  logs : List Log
  accounts_to_delete : List Address
  touched_accounts : List Address
  error : Option Unit
  return_data : Bytes
deriving DecidableEq

/-- The single consensus-level error of the core, `InvalidBlock`
(`InvalidSignature` is wrapped into it; `TransactionTypeError` raised by
the transaction decoder is a subclass of it). -/
inductive Err where
  | invalidBlock : Err
deriving DecidableEq

/-- External collaborators of `fork.py`, with the contracts listed in the
spec's "external interfaces" section.  Pure functions are fields; the EVM
and withdrawal processing thread the state explicitly. -/
structure Ext where
  keccak256 : Bytes → Bytes
  rlp_encode : RLPItem → Bytes
  secp256k1_recover : Nat → Nat → Nat → Bytes → Except Unit Bytes
  logs_bloom : List Log → Bytes
  trie_root : List (Bytes × Bytes) → Bytes
  state_root : State → Bytes
  process_message_call : Message → Env → State → MessageCallOutput × State
  prepare_message : Address → Option Address → Nat → Bytes → Nat → Env → State →
    List Address → List (Address × Bytes) → List Authorization → Message
  process_withdrawal : Withdrawal → State → State
  decode_transaction : TxWire → Except Err Transaction
  encode_transaction : Transaction → Bytes
  encode_receipt : Transaction → Receipt → Bytes
  parse_deposit_requests_from_receipt : Bytes → Bytes
  calculate_excess_blob_gas : Header → Header → Nat
  calculate_blob_gas_price : Nat → Nat
  calculate_total_blob_gas : Transaction → Nat
  init_code_cost : Nat → Nat
  is_valid_delegation : Bytes → Bool

def BASE_FEE_MAX_CHANGE_DENOMINATOR : Nat := 8

def ELASTICITY_MULTIPLIER : Nat := 2

def GAS_LIMIT_ADJUSTMENT_FACTOR : Nat := 1024

def GAS_LIMIT_MINIMUM : Nat := 5000

def SYSTEM_ADDRESS : Address := List.replicate 19 0xff ++ [0xfe]

def BEACON_ROOTS_ADDRESS : Address :=
  [0x00, 0x0F, 0x3d, 0xf6, 0xD7, 0x32, 0x80, 0x7E, 0xf1, 0x31,
   0x9f, 0xB7, 0xB8, 0xbB, 0x85, 0x22, 0xd0, 0xBe, 0xac, 0x02]

def HISTORY_STORAGE_ADDRESS : Address :=
  [0x0a, 0xae, 0x40, 0x96, 0x5e, 0x68, 0x00, 0xcd, 0x9b, 0x1f,
   0x4b, 0x05, 0xff, 0x21, 0x58, 0x10, 0x47, 0xe3, 0xf9, 0x1e]

def WITHDRAWAL_REQUEST_PREDEPLOY_ADDRESS : Address :=
  [0x09, 0xFc, 0x77, 0x2D, 0x08, 0x57, 0x55, 0x07, 0x24, 0xb0,
   0x7B, 0x85, 0x0a, 0x43, 0x23, 0xf3, 0x91, 0x12, 0xaA, 0xaA]

def CONSOLIDATION_REQUEST_PREDEPLOY_ADDRESS : Address :=
  [0x01, 0xaB, 0xEa, 0x29, 0x65, 0x9e, 0x5e, 0x97, 0xC9, 0x51,
   0x07, 0xF2, 0x0b, 0xb7, 0x53, 0xcD, 0x3e, 0x09, 0xbB, 0xBb]

def SYSTEM_TRANSACTION_GAS : Nat := 30000000

def VERSIONED_HASH_VERSION_KZG : Bytes := [0x01]

def HISTORY_SERVE_WINDOW : Nat := 8192

/-- Source `EMPTY_OMMER_HASH = keccak256(rlp.encode([]))`. -/
def EMPTY_OMMER_HASH (ext : Ext) : Bytes :=
  ext.keccak256 (ext.rlp_encode (.seq []))

/-- Modelled from the spec: request type tags 0x00 for deposits
(`requests.py` is not under `src/`). -/
def DEPOSIT_REQUEST_TYPE : Bytes := [0x00]

/-- Modelled from the spec: request type tag 0x01 for withdrawal
requests. -/
def WITHDRAWAL_REQUEST_TYPE : Bytes := [0x01]

/-- Modelled from the spec: request type tag 0x02 for consolidation
requests. -/
def CONSOLIDATION_REQUEST_TYPE : Bytes := [0x02]

/-- Source `SECP256K1N`, the order of the secp256k1 curve. -/
def SECP256K1N : Nat :=
  0xFFFFFFFFFFFFFFFFFFFFFFFFFFFFFFFEBAAEDCE6AF48A03BBFD25E8CD0364141

def TX_BASE_COST : Nat := 21000

def TX_DATA_COST_PER_NON_ZERO : Nat := 16

def TX_DATA_COST_PER_ZERO : Nat := 4

/-- Modelled from the spec: the spec names `TX_CREATE_COST` without a
value (`transactions.py` is not under `src/`); the canonical value is
32000.  No claim depends on the value. -/
def TX_CREATE_COST : Nat := 32000

def TX_ACCESS_LIST_ADDRESS_COST : Nat := 2400

def TX_ACCESS_LIST_STORAGE_KEY_COST : Nat := 1900

/-- Modelled from the spec: the spec names `PER_EMPTY_ACCOUNT_COST`
without a value (EIP-7702's value is 25000).  No claim depends on the
value. -/
def PER_EMPTY_ACCOUNT_COST : Nat := 25000

/-- Modelled from the spec: maximum code size (EIP-170), referenced by the
admitter as `2 * MAX_CODE_SIZE`; `vm/interpreter.py` is not under
`src/`. -/
def MAX_CODE_SIZE : Nat := 24576

/-- Modelled from the spec: `calculate_data_fee` of `vm/gas.py` (not under
`src/`) computes `blob_gas_fee = total_blob_gas(tx) *
blob_gas_price(excess_blob_gas)`. -/
def calculate_data_fee (ext : Ext) (excess_blob_gas : Nat) (tx : Transaction) : Nat :=
  ext.calculate_total_blob_gas tx * ext.calculate_blob_gas_price excess_blob_gas

/-- RLP rendering of an optional destination: `Bytes0 b""` for creation,
the address bytes otherwise. -/
def toRLPAddress : Option Address → RLPItem
  | some a => .bytes a
  | none => .bytes []

def accessEntryToRLP (e : AccessEntry) : RLPItem :=
  .seq [.bytes e.address, .seq (e.storage_keys.map .bytes)]

def authorizationToRLP (a : Authorization) : RLPItem :=
  .seq [.uint a.chain_id, .bytes a.address, .uint a.nonce,
        .uint a.y_parity, .uint a.r, .uint a.s]

/-- RLP rendering of a header, in the field order of the `Header`
dataclass (the order the spec lists in its data model). -/
def headerToRLP (h : Header) : RLPItem :=
  .seq [.bytes h.parent_hash, .bytes h.ommers_hash, .bytes h.coinbase,
        .bytes h.state_root, .bytes h.transactions_root, .bytes h.receipt_root,
        .bytes h.bloom, .uint h.difficulty, .uint h.number, .uint h.gas_limit,
        .uint h.gas_used, .uint h.timestamp, .bytes h.extra_data,
        .bytes h.prev_randao, .bytes h.nonce, .uint h.base_fee_per_gas,
        .bytes h.withdrawals_root, .uint h.blob_gas_used, .uint h.excess_blob_gas,
        .bytes h.parent_beacon_block_root, .bytes h.requests_hash]

def withdrawalToRLP (w : Withdrawal) : RLPItem :=
  .seq [.uint w.index, .uint w.validator_index, .bytes w.address, .uint w.amount]

/-- Source `calculate_intrinsic_cost`: gas charged before execution starts. -/
def calculate_intrinsic_cost (ext : Ext) (tx : Transaction) : Nat :=
  let data_cost := tx.data.foldl
    (fun acc byte =>
      acc + if byte = 0 then TX_DATA_COST_PER_ZERO else TX_DATA_COST_PER_NON_ZERO) 0
  let create_cost :=
    if tx.to' = none then TX_CREATE_COST + ext.init_code_cost tx.data.length else 0
  let access_list_cost :=
    match tx with
    | .accessList t => t.access_list.foldl
        (fun acc e => acc + TX_ACCESS_LIST_ADDRESS_COST
          + e.storage_keys.length * TX_ACCESS_LIST_STORAGE_KEY_COST) 0
    | .feeMarket t => t.access_list.foldl
        (fun acc e => acc + TX_ACCESS_LIST_ADDRESS_COST
          + e.storage_keys.length * TX_ACCESS_LIST_STORAGE_KEY_COST) 0
    | .blob t => t.access_list.foldl
        (fun acc e => acc + TX_ACCESS_LIST_ADDRESS_COST
          + e.storage_keys.length * TX_ACCESS_LIST_STORAGE_KEY_COST) 0
    | .setCode t => t.access_list.foldl
        (fun acc e => acc + TX_ACCESS_LIST_ADDRESS_COST
          + e.storage_keys.length * TX_ACCESS_LIST_STORAGE_KEY_COST) 0
    | .legacy _ => 0
  let auth_cost :=
    match tx with
    | .setCode t => PER_EMPTY_ACCOUNT_COST * t.authorizations.length
    | _ => 0
  TX_BASE_COST + data_cost + create_cost + access_list_cost + auth_cost

/-- Source `signing_hash_pre155`. -/
def signing_hash_pre155 (ext : Ext) (tx : LegacyTransaction) : Bytes :=
  ext.keccak256 (ext.rlp_encode (.seq
    [.uint tx.nonce, .uint tx.gas_price, .uint tx.gas, toRLPAddress tx.to',
     .uint tx.value, .bytes tx.data]))

/-- Source `signing_hash_155`. -/
def signing_hash_155 (ext : Ext) (tx : LegacyTransaction) (chain_id : Nat) : Bytes :=
  ext.keccak256 (ext.rlp_encode (.seq
    [.uint tx.nonce, .uint tx.gas_price, .uint tx.gas, toRLPAddress tx.to',
     .uint tx.value, .bytes tx.data, .uint chain_id, .uint 0, .uint 0]))

/-- Source `signing_hash_2930`. -/
def signing_hash_2930 (ext : Ext) (tx : AccessListTransaction) : Bytes :=
  ext.keccak256 ([0x01] ++ ext.rlp_encode (.seq
    [.uint tx.chain_id, .uint tx.nonce, .uint tx.gas_price, .uint tx.gas,
     toRLPAddress tx.to', .uint tx.value, .bytes tx.data,
     .seq (tx.access_list.map accessEntryToRLP)]))

/-- Source `signing_hash_1559`. -/
def signing_hash_1559 (ext : Ext) (tx : FeeMarketTransaction) : Bytes :=
  ext.keccak256 ([0x02] ++ ext.rlp_encode (.seq
    [.uint tx.chain_id, .uint tx.nonce, .uint tx.max_priority_fee_per_gas,
     .uint tx.max_fee_per_gas, .uint tx.gas, toRLPAddress tx.to', .uint tx.value,
     .bytes tx.data, .seq (tx.access_list.map accessEntryToRLP)]))

/-- Source `signing_hash_4844`. -/
def signing_hash_4844 (ext : Ext) (tx : BlobTransaction) : Bytes :=
  ext.keccak256 ([0x03] ++ ext.rlp_encode (.seq
    [.uint tx.chain_id, .uint tx.nonce, .uint tx.max_priority_fee_per_gas,
     .uint tx.max_fee_per_gas, .uint tx.gas, toRLPAddress tx.to', .uint tx.value,
     .bytes tx.data, .seq (tx.access_list.map accessEntryToRLP),
     .uint tx.max_fee_per_blob_gas, .seq (tx.blob_versioned_hashes.map .bytes)]))

/-- Source `signing_hash_7702`. -/
def signing_hash_7702 (ext : Ext) (tx : SetCodeTransaction) : Bytes :=
  ext.keccak256 ([0x04] ++ ext.rlp_encode (.seq
    [.uint tx.chain_id, .uint tx.nonce, .uint tx.max_priority_fee_per_gas,
     .uint tx.max_fee_per_gas, .uint tx.gas, toRLPAddress tx.to', .uint tx.value,
     .bytes tx.data, .seq (tx.access_list.map accessEntryToRLP),
     .seq (tx.authorizations.map authorizationToRLP)]))

/-- The `public_key` computation of `recover_sender`: the type-directed
recovery attempt (the legacy branch rejects v outside
`{27, 28, 35 + 2*chain_id, 36 + 2*chain_id}`, modelled as an
`InvalidBlock`-to-be, and `InvalidSignature` from the crypto collaborator
is the `Unit` error). -/
def signature_recovery (ext : Ext) (chain_id : Nat) (tx : Transaction) :
    Except Unit Bytes :=
  match tx with
  | .legacy t =>
    if t.v = 27 ∨ t.v = 28 then
      ext.secp256k1_recover tx.r tx.s (t.v - 27) (signing_hash_pre155 ext t)
    else if t.v ≠ 35 + chain_id * 2 ∧ t.v ≠ 36 + chain_id * 2 then
      .error ()
    else
      ext.secp256k1_recover tx.r tx.s (t.v - 35 - chain_id * 2)
        (signing_hash_155 ext t chain_id)
  | .accessList t =>
    ext.secp256k1_recover tx.r tx.s t.y_parity (signing_hash_2930 ext t)
  | .feeMarket t =>
    ext.secp256k1_recover tx.r tx.s t.y_parity (signing_hash_1559 ext t)
  | .blob t =>
    ext.secp256k1_recover tx.r tx.s t.y_parity (signing_hash_4844 ext t)
  | .setCode t =>
    ext.secp256k1_recover tx.r tx.s t.y_parity (signing_hash_7702 ext t)

/-- Source `recover_sender`: signature parameter checks, type-directed signature
recovery, and address derivation `keccak256(public_key)[12:32]`. -/
def recover_sender (ext : Ext) (chain_id : Nat) (tx : Transaction) : Except Err Address :=
  if tx.r = 0 ∨ tx.r ≥ SECP256K1N then .error .invalidBlock
  else if tx.s = 0 ∨ tx.s > SECP256K1N / 2 then .error .invalidBlock
  else
    match signature_recovery ext chain_id tx with
    | .error _ => .error .invalidBlock
    | .ok pk => .ok (((ext.keccak256 pk).drop 12).take 20)

/-- Source `check_gas_limit`: the child gas limit must lie strictly within
`parent ± parent // 1024` and be at least `GAS_LIMIT_MINIMUM`. -/
def check_gas_limit (gas_limit : Nat) (parent_gas_limit : Nat) : Bool :=
  let max_adjustment_delta := parent_gas_limit / GAS_LIMIT_ADJUSTMENT_FACTOR
  if gas_limit ≥ parent_gas_limit + max_adjustment_delta then false
  else if gas_limit ≤ parent_gas_limit - max_adjustment_delta then false
  else if gas_limit < GAS_LIMIT_MINIMUM then false
  else true

/-- Source `calculate_base_fee_per_gas`: EIP-1559 base fee of the child block
from the parent's gas limit, gas used and base fee. -/
def calculate_base_fee_per_gas (block_gas_limit : Nat) (parent_gas_limit : Nat)
    (parent_gas_used : Nat) (parent_base_fee_per_gas : Nat) : Except Err Nat :=
  let parent_gas_target := parent_gas_limit / ELASTICITY_MULTIPLIER
  if ¬ check_gas_limit block_gas_limit parent_gas_limit then .error .invalidBlock
  else if parent_gas_used = parent_gas_target then
    .ok parent_base_fee_per_gas
  else if parent_gas_used > parent_gas_target then
    let gas_used_delta := parent_gas_used - parent_gas_target
    let parent_fee_gas_delta := parent_base_fee_per_gas * gas_used_delta
    let target_fee_gas_delta := parent_fee_gas_delta / parent_gas_target
    let base_fee_per_gas_delta :=
      max (target_fee_gas_delta / BASE_FEE_MAX_CHANGE_DENOMINATOR) 1
    .ok (parent_base_fee_per_gas + base_fee_per_gas_delta)
  else
    let gas_used_delta := parent_gas_target - parent_gas_used
    let parent_fee_gas_delta := parent_base_fee_per_gas * gas_used_delta
    let target_fee_gas_delta := parent_fee_gas_delta / parent_gas_target
    let base_fee_per_gas_delta :=
      target_fee_gas_delta / BASE_FEE_MAX_CHANGE_DENOMINATOR
    .ok (parent_base_fee_per_gas - base_fee_per_gas_delta)

/-- Source `validate_header`: shape and linkage checks of a candidate header
against its parent. -/
def validate_header (ext : Ext) (header : Header) (parent_header : Header) :
    Except Err Unit :=
  if header.gas_used > header.gas_limit then .error .invalidBlock
  else
    match calculate_base_fee_per_gas header.gas_limit parent_header.gas_limit
        parent_header.gas_used parent_header.base_fee_per_gas with
    | .error e => .error e
    | .ok expected_base_fee_per_gas =>
      if expected_base_fee_per_gas ≠ header.base_fee_per_gas then .error .invalidBlock
      else if header.timestamp ≤ parent_header.timestamp then .error .invalidBlock
      else if header.number ≠ parent_header.number + 1 then .error .invalidBlock
      else if header.extra_data.length > 32 then .error .invalidBlock
      else if header.difficulty ≠ 0 then .error .invalidBlock
      else if header.nonce ≠ List.replicate 8 0 then .error .invalidBlock
      else if header.ommers_hash ≠ EMPTY_OMMER_HASH ext then .error .invalidBlock
      else if header.parent_hash ≠ ext.keccak256 (ext.rlp_encode (headerToRLP parent_header))
        then .error .invalidBlock
      else .ok ()

/-- Source `check_transaction`: pre-execution admission checks.  The state is
passed through explicitly; the Python function reads it only via
`get_account`. -/
def check_transaction (ext : Ext) (state : State) (tx : Transaction)
    (gas_available : Nat) (chain_id : Nat) (base_fee_per_gas : Nat)
    (excess_blob_gas : Nat) :
    Except Err (Address × Nat × List Bytes) × State :=
  if calculate_intrinsic_cost ext tx > tx.gas then (.error .invalidBlock, state)
  else if tx.nonce ≥ 2 ^ 64 - 1 then (.error .invalidBlock, state)
  else if tx.to' = none ∧ tx.data.length > 2 * MAX_CODE_SIZE then
    (.error .invalidBlock, state)
  else if tx.gas > gas_available then (.error .invalidBlock, state)
  else
    match recover_sender ext chain_id tx with
    | .error e => (.error e, state)
    | .ok sender_address =>
      let (sender_account, state) := (state.get_account sender_address, state)
      let fee : Except Err (Nat × Nat) :=
        match tx with
        | .feeMarket t =>
          if t.max_fee_per_gas < t.max_priority_fee_per_gas then .error .invalidBlock
          else if t.max_fee_per_gas < base_fee_per_gas then .error .invalidBlock
          else
            let priority_fee_per_gas :=
              min t.max_priority_fee_per_gas (t.max_fee_per_gas - base_fee_per_gas)
            .ok (priority_fee_per_gas + base_fee_per_gas, tx.gas * t.max_fee_per_gas)
        | .blob t =>
          if t.max_fee_per_gas < t.max_priority_fee_per_gas then .error .invalidBlock
          else if t.max_fee_per_gas < base_fee_per_gas then .error .invalidBlock
          else
            let priority_fee_per_gas :=
              min t.max_priority_fee_per_gas (t.max_fee_per_gas - base_fee_per_gas)
            .ok (priority_fee_per_gas + base_fee_per_gas, tx.gas * t.max_fee_per_gas)
        | .setCode t =>
          if t.max_fee_per_gas < t.max_priority_fee_per_gas then .error .invalidBlock
          else if t.max_fee_per_gas < base_fee_per_gas then .error .invalidBlock
          else
            let priority_fee_per_gas :=
              min t.max_priority_fee_per_gas (t.max_fee_per_gas - base_fee_per_gas)
            .ok (priority_fee_per_gas + base_fee_per_gas, tx.gas * t.max_fee_per_gas)
        | .legacy t =>
          if t.gas_price < base_fee_per_gas then .error .invalidBlock
          else .ok (t.gas_price, tx.gas * t.gas_price)
        | .accessList t =>
          if t.gas_price < base_fee_per_gas then .error .invalidBlock
          else .ok (t.gas_price, tx.gas * t.gas_price)
      match fee with
      | .error e => (.error e, state)
      | .ok (effective_gas_price, max_gas_fee) =>
        let blob_fee : Except Err (Nat × List Bytes) :=
          match tx with
          | .blob t =>
            if t.blob_versioned_hashes.any
                (fun h => decide (h.take 1 ≠ VERSIONED_HASH_VERSION_KZG)) then
              .error .invalidBlock
            else if t.max_fee_per_blob_gas < ext.calculate_blob_gas_price excess_blob_gas
              then .error .invalidBlock
            else
              .ok (max_gas_fee + ext.calculate_total_blob_gas tx * t.max_fee_per_blob_gas,
                   t.blob_versioned_hashes)
          | _ => .ok (max_gas_fee, [])
        match blob_fee with
        | .error e => (.error e, state)
        | .ok (max_gas_fee, blob_versioned_hashes) =>
          let shape : Except Err Unit :=
            match tx with
            | .blob _ =>
              if tx.to' = none then .error .invalidBlock else .ok ()
            | .setCode t =>
              if tx.to' = none then .error .invalidBlock
              else if t.authorizations = [] then .error .invalidBlock
              else .ok ()
            | _ => .ok ()
          match shape with
          | .error e => (.error e, state)
          | .ok _ =>
            if sender_account.nonce ≠ tx.nonce then (.error .invalidBlock, state)
            else if sender_account.balance < max_gas_fee + tx.value then
              (.error .invalidBlock, state)
            else if sender_account.code ≠ [] ∧ ¬ ext.is_valid_delegation sender_account.code
              then (.error .invalidBlock, state)
            else (.ok (sender_address, effective_gas_price, blob_versioned_hashes), state)

/-- Access list of a typed transaction, empty for legacy transactions. -/
def tx_access_list (tx : Transaction) : List AccessEntry :=
  match tx with
  | .accessList t => t.access_list
  | .feeMarket t => t.access_list
  | .blob t => t.access_list
  | .setCode t => t.access_list
  | .legacy _ => []

/-- Preaccessed addresses seeded by `process_transaction`: the coinbase
plus every access-list address. -/
def tx_preaccessed_addresses (env : Env) (tx : Transaction) : List Address :=
  env.coinbase :: (tx_access_list tx).map (fun e => e.address)

/-- Preaccessed storage keys seeded by `process_transaction`. -/
def tx_preaccessed_storage_keys (tx : Transaction) : List (Address × Bytes) :=
  (tx_access_list tx).flatMap (fun e => e.storage_keys.map (fun k => (e.address, k)))

/-- Authorizations of a SetCode transaction, empty otherwise. -/
def tx_authorizations (tx : Transaction) : List Authorization :=
  match tx with
  | .setCode t => t.authorizations
  | _ => []

/-- Blob fee charged up front by `process_transaction`:
`calculate_data_fee` for blob transactions, zero otherwise. -/
def tx_blob_gas_fee (ext : Ext) (excess_blob_gas : Nat) (tx : Transaction) : Nat :=
  match tx with
  | .blob _ => calculate_data_fee ext excess_blob_gas tx
  | _ => 0

/-- Sender-side effects of `process_transaction` before the EVM call:
nonce increment and the up-front debit of
`effective_gas_fee + blob_gas_fee`. -/
def sender_state_after_gas_fee (ext : Ext) (env : Env) (state : State)
    (tx : Transaction) : State :=
  let sender := env.origin
  let sender_account := state.get_account sender
  let blob_gas_fee := tx_blob_gas_fee ext env.excess_blob_gas tx
  let effective_gas_fee := tx.gas * env.gas_price
  let state := state.increment_nonce sender
  let sender_balance_after_gas_fee :=
    sender_account.balance - effective_gas_fee - blob_gas_fee
  state.set_account_balance sender sender_balance_after_gas_fee

/-- The message handed to the EVM by `process_transaction`, built by the
`prepare_message` collaborator from the post-debit state. -/
def tx_message (ext : Ext) (env : Env) (state : State) (tx : Transaction) : Message :=
  let gas := tx.gas - calculate_intrinsic_cost ext tx
  ext.prepare_message env.origin tx.to' tx.value tx.data gas env
    (sender_state_after_gas_fee ext env state tx)
    (tx_preaccessed_addresses env tx) (tx_preaccessed_storage_keys tx)
    (tx_authorizations tx)

/-- Source `process_transaction`: intrinsic debit, EVM invocation, gas refund,
fee distribution, account cleanup. -/
def process_transaction (ext : Ext) (env : Env) (state : State) (tx : Transaction) :
    (Nat × List Log × Option Unit) × State :=
  let sender := env.origin
  let (output, state1) := ext.process_message_call (tx_message ext env state tx) env
      (sender_state_after_gas_fee ext env state tx)
  let gas_used := tx.gas - output.gas_left
  let gas_refund := min (gas_used / 5) output.refund_counter
  let gas_refund_amount := (output.gas_left + gas_refund) * env.gas_price
  let priority_fee_per_gas := env.gas_price - env.base_fee_per_gas
  let transaction_fee := (tx.gas - output.gas_left - gas_refund) * priority_fee_per_gas
  let total_gas_used := gas_used - gas_refund
  let state2 := state1.set_account_balance sender
      ((state1.get_account sender).balance + gas_refund_amount)
  let coinbase_balance_after_mining_fee :=
    (state2.get_account env.coinbase).balance + transaction_fee
  let state3 :=
    if coinbase_balance_after_mining_fee ≠ 0 then
      state2.set_account_balance env.coinbase coinbase_balance_after_mining_fee
    else if state2.account_exists_and_is_empty env.coinbase then
      state2.destroy_account env.coinbase
    else state2
  let state4 := output.accounts_to_delete.foldl (fun s a => s.destroy_account a) state3
  let state5 := state4.destroy_touched_empty_accounts output.touched_accounts
  ((total_gas_used, output.logs, output.error), state5)

/-- Source `make_receipt`: build and wire-encode the receipt of an executed
transaction. -/
def make_receipt (ext : Ext) (tx : Transaction) (error : Option Unit)
    (cumulative_gas_used : Nat) (logs : List Log) : Bytes :=
  ext.encode_receipt tx
    { succeeded := error.isNone, cumulative_gas_used := cumulative_gas_used,
      bloom := ext.logs_bloom logs, logs := logs }

/-- Output of `apply_body`. -/
structure ApplyBodyOutput where
  block_gas_used : Nat
  transactions_root : Bytes
  receipt_root : Bytes
  block_logs_bloom : Bytes
  state_root : Bytes
  withdrawals_root : Bytes
  blob_gas_used : Nat
  requests_hash : Bytes
deriving DecidableEq

/-- Source `process_system_transaction`: synthetic message call from the SYSTEM
address against a predeploy.  Touched empty accounts are destroyed
afterwards, as in the source. -/
def process_system_transaction (ext : Ext) (target_address : Address) (data : Bytes)
    (block_hashes : List Bytes) (coinbase : Address) (block_number : Nat)
    (base_fee_per_gas : Nat) (block_gas_limit : Nat) (block_time : Nat)
    (prev_randao : Bytes) (state : State) (chain_id : Nat) (excess_blob_gas : Nat) :
    MessageCallOutput × State :=
  let system_contract_code := (state.get_account target_address).code
  let system_tx_message : Message :=
    { caller := SYSTEM_ADDRESS, target := some target_address,
      gas := SYSTEM_TRANSACTION_GAS, value := 0, data := data,
      code := system_contract_code, depth := 0, current_target := target_address,
      code_address := target_address, should_transfer_value := false,
      is_static := false, accessed_addresses := [], accessed_storage_keys := [],
      authorizations := [] }
  let system_tx_env : Env :=
    { caller := SYSTEM_ADDRESS, block_hashes := block_hashes,
      origin := SYSTEM_ADDRESS, coinbase := coinbase, number := block_number,
      gas_limit := block_gas_limit, base_fee_per_gas := base_fee_per_gas,
      gas_price := base_fee_per_gas, time := block_time, prev_randao := prev_randao,
      chain_id := chain_id, excess_blob_gas := excess_blob_gas,
      blob_versioned_hashes := [] }
  let (system_tx_output, state) :=
    ext.process_message_call system_tx_message system_tx_env state
  let state := state.destroy_touched_empty_accounts system_tx_output.touched_accounts
  (system_tx_output, state)

/-- Source `trie_set` over a trie represented as its insertion sequence (all keys
used by `apply_body` are distinct `rlp(i)`). -/
def trie_set (t : List (Bytes × Bytes)) (k : Bytes) (v : Bytes) :
    List (Bytes × Bytes) :=
  t ++ [(k, v)]

/-- Modelled from the spec: `compute_requests_hash` of `requests.py` (not
under `src/`) is `keccak256` of the concatenation of `keccak256` of each
request. -/
def compute_requests_hash (ext : Ext) (requests : List Bytes) : Bytes :=
  ext.keccak256 (List.flatten (requests.map ext.keccak256))

/-- Source `process_general_purpose_requests`: build the execution-layer request
list in ascending type order. -/
def process_general_purpose_requests (ext : Ext) (deposit_requests : Bytes)
    (state : State) (block_hashes : List Bytes) (coinbase : Address)
    (block_number : Nat) (base_fee_per_gas : Nat) (block_gas_limit : Nat)
    (block_time : Nat) (prev_randao : Bytes) (chain_id : Nat)
    (excess_blob_gas : Nat) : List Bytes × State :=
  let requests_from_execution : List Bytes := []
  let requests_from_execution :=
    if deposit_requests.length > 0 then
      requests_from_execution ++ [DEPOSIT_REQUEST_TYPE ++ deposit_requests]
    else requests_from_execution
  let (system_withdrawal_tx_output, state) :=
    process_system_transaction ext WITHDRAWAL_REQUEST_PREDEPLOY_ADDRESS []
      block_hashes coinbase block_number base_fee_per_gas block_gas_limit
      block_time prev_randao state chain_id excess_blob_gas
  let requests_from_execution :=
    if system_withdrawal_tx_output.return_data.length > 0 then
      requests_from_execution ++
        [WITHDRAWAL_REQUEST_TYPE ++ system_withdrawal_tx_output.return_data]
    else requests_from_execution
  let (system_consolidation_tx_output, state) :=
    process_system_transaction ext CONSOLIDATION_REQUEST_PREDEPLOY_ADDRESS []
      block_hashes coinbase block_number base_fee_per_gas block_gas_limit
      block_time prev_randao state chain_id excess_blob_gas
  let requests_from_execution :=
    if system_consolidation_tx_output.return_data.length > 0 then
      requests_from_execution ++
        [CONSOLIDATION_REQUEST_TYPE ++ system_consolidation_tx_output.return_data]
    else requests_from_execution
  (requests_from_execution, state)

/-- Accumulator of `apply_body`'s transaction loop. -/
structure BodyState where
  state : State
  gas_available : Nat
  transactions_trie : List (Bytes × Bytes)
  receipts_trie : List (Bytes × Bytes)
  block_logs : List Log
  deposit_requests : Bytes
  blob_gas_used : Nat
deriving DecidableEq

/-- Per-transaction environment built inside `apply_body`'s loop. -/
def make_tx_env (block_hashes : List Bytes) (coinbase : Address)
    (block_number base_fee_per_gas block_gas_limit block_time : Nat)
    (prev_randao : Bytes) (chain_id excess_blob_gas : Nat)
    (sender_address : Address) (effective_gas_price : Nat)
    (blob_versioned_hashes : List Bytes) : Env :=
  { caller := sender_address, block_hashes := block_hashes,
    origin := sender_address, coinbase := coinbase, number := block_number,
    gas_limit := block_gas_limit, base_fee_per_gas := base_fee_per_gas,
    gas_price := effective_gas_price, time := block_time,
    prev_randao := prev_randao, chain_id := chain_id,
    excess_blob_gas := excess_blob_gas,
    blob_versioned_hashes := blob_versioned_hashes }

/-- Source `apply_body`'s `for i, tx in enumerate(map(decode_transaction, ...))`
loop.  On failure the error carries the state at the failure point, since
the Python code mutates the caller's state in place. -/
def apply_transactions (ext : Ext) (block_hashes : List Bytes) (coinbase : Address)
    (block_number base_fee_per_gas block_gas_limit block_time : Nat)
    (prev_randao : Bytes) (chain_id excess_blob_gas : Nat) :
    List TxWire → Nat → BodyState → Except (Err × State) BodyState
  | [], _, bs => .ok bs
  | w :: rest, i, bs =>
    match ext.decode_transaction w with
    | .error e => .error (e, bs.state)
    | .ok tx =>
      let transactions_trie :=
        trie_set bs.transactions_trie (ext.rlp_encode (.uint i)) (ext.encode_transaction tx)
      match check_transaction ext bs.state tx bs.gas_available chain_id
          base_fee_per_gas excess_blob_gas with
      | (.error e, state) => .error (e, state)
      | (.ok (sender_address, effective_gas_price, blob_versioned_hashes), state) =>
        let env := make_tx_env block_hashes coinbase block_number base_fee_per_gas
          block_gas_limit block_time prev_randao chain_id excess_blob_gas
          sender_address effective_gas_price blob_versioned_hashes
        let ((gas_used, logs, error), state) := process_transaction ext env state tx
        let gas_available := bs.gas_available - gas_used
        let receipt := make_receipt ext tx error (block_gas_limit - gas_available) logs
        let receipts_trie := trie_set bs.receipts_trie (ext.rlp_encode (.uint i)) receipt
        let deposit_requests :=
          bs.deposit_requests ++ ext.parse_deposit_requests_from_receipt receipt
        let block_logs := bs.block_logs ++ logs
        let blob_gas_used := bs.blob_gas_used + ext.calculate_total_blob_gas tx
        apply_transactions ext block_hashes coinbase block_number base_fee_per_gas
          block_gas_limit block_time prev_randao chain_id excess_blob_gas
          rest (i + 1)
          { state := state, gas_available := gas_available,
            transactions_trie := transactions_trie, receipts_trie := receipts_trie,
            block_logs := block_logs, deposit_requests := deposit_requests,
            blob_gas_used := blob_gas_used }

/-- Source `apply_body`'s withdrawal loop: trie insertion, credit, destruction of
resulting empty accounts. -/
def apply_withdrawals (ext : Ext) :
    List Withdrawal → Nat → List (Bytes × Bytes) × State → List (Bytes × Bytes) × State
  | [], _, acc => acc
  | wd :: rest, i, (withdrawals_trie, state) =>
    let withdrawals_trie :=
      trie_set withdrawals_trie (ext.rlp_encode (.uint i)) (ext.rlp_encode (withdrawalToRLP wd))
    let state := ext.process_withdrawal wd state
    let state :=
      if state.account_exists_and_is_empty wd.address then
        state.destroy_account wd.address
      else state
    apply_withdrawals ext rest (i + 1) (withdrawals_trie, state)

/-- Source `apply_body`: system calls, transaction loop, withdrawals, requests,
and assembly of the block-level commitments.  (`block_hashes[-1]` is
modelled with an empty default; `state_transition` only calls `apply_body`
with a non-empty hash list.) -/
def apply_body (ext : Ext) (state : State) (block_hashes : List Bytes)
    (coinbase : Address) (block_number base_fee_per_gas block_gas_limit block_time : Nat)
    (prev_randao : Bytes) (transactions : List TxWire) (chain_id : Nat)
    (withdrawals : List Withdrawal) (parent_beacon_block_root : Bytes)
    (excess_blob_gas : Nat) : Except (Err × State) (ApplyBodyOutput × State) :=
  let (_, state) := process_system_transaction ext BEACON_ROOTS_ADDRESS
    parent_beacon_block_root block_hashes coinbase block_number base_fee_per_gas
    block_gas_limit block_time prev_randao state chain_id excess_blob_gas
  let (_, state) := process_system_transaction ext HISTORY_STORAGE_ADDRESS
    (block_hashes.getLastD []) block_hashes coinbase block_number base_fee_per_gas
    block_gas_limit block_time prev_randao state chain_id excess_blob_gas
  match apply_transactions ext block_hashes coinbase block_number base_fee_per_gas
      block_gas_limit block_time prev_randao chain_id excess_blob_gas
      transactions 0
      { state := state, gas_available := block_gas_limit, transactions_trie := [],
        receipts_trie := [], block_logs := [], deposit_requests := [],
        blob_gas_used := 0 } with
  | .error es => .error es
  | .ok bs =>
    let block_gas_used := block_gas_limit - bs.gas_available
    let block_logs_bloom := ext.logs_bloom bs.block_logs
    let (withdrawals_trie, state) := apply_withdrawals ext withdrawals 0 ([], bs.state)
    let (requests_from_execution, state) :=
      process_general_purpose_requests ext bs.deposit_requests state block_hashes
        coinbase block_number base_fee_per_gas block_gas_limit block_time
        prev_randao chain_id excess_blob_gas
    let requests_hash := compute_requests_hash ext requests_from_execution
    .ok ({ block_gas_used := block_gas_used,
           transactions_root := ext.trie_root bs.transactions_trie,
           receipt_root := ext.trie_root bs.receipts_trie,
           block_logs_bloom := block_logs_bloom,
           state_root := ext.state_root state,
           withdrawals_root := ext.trie_root withdrawals_trie,
           blob_gas_used := bs.blob_gas_used,
           requests_hash := requests_hash }, state)

/-- History and current state of the block chain. -/
structure BlockChain where
  blocks : List Block
  state : State
  chain_id : Nat
deriving DecidableEq

/-- Source `get_last_256_block_hashes`: the parent hashes of the last ≤255 stored
blocks followed by the hash of the most recent stored block. -/
def get_last_256_block_hashes (ext : Ext) (chain : BlockChain) : List Bytes :=
  let recent_blocks := chain.blocks.drop (chain.blocks.length - 255)
  match recent_blocks.getLast? with
  | none => []
  | some last_block =>
    let recent_block_hashes := recent_blocks.map (fun b => b.header.parent_hash)
    let most_recent_block_hash :=
      ext.keccak256 (ext.rlp_encode (headerToRLP last_block.header))
    recent_block_hashes ++ [most_recent_block_hash]

/-- Source `state_transition`: the whole-block entry point.  The returned chain
is the chain as the in-place-mutating Python code leaves it: unchanged on
failures before `apply_body`, with the partially updated state on later
failures, and with the new state and the appended, pruned blocks list on
success.  (On an empty chain the Python code fails with `IndexError` on
`chain.blocks[-1]`; that precondition is modelled by returning the error
with the chain unchanged.) -/
def state_transition (ext : Ext) (chain : BlockChain) (block : Block) :
    Except Err Unit × BlockChain :=
  match chain.blocks.getLast? with
  | none => (.error .invalidBlock, chain)
  | some parent_block =>
    let parent_header := parent_block.header
    let excess_blob_gas := ext.calculate_excess_blob_gas block.header parent_header
    if block.header.excess_blob_gas ≠ excess_blob_gas then (.error .invalidBlock, chain)
    else
      match validate_header ext block.header parent_header with
      | .error e => (.error e, chain)
      | .ok _ =>
        if block.ommers ≠ [] then (.error .invalidBlock, chain)
        else
          match apply_body ext chain.state (get_last_256_block_hashes ext chain)
              block.header.coinbase block.header.number block.header.base_fee_per_gas
              block.header.gas_limit block.header.timestamp block.header.prev_randao
              block.transactions chain.chain_id block.withdrawals
              block.header.parent_beacon_block_root excess_blob_gas with
          | .error (e, state) => (.error e, { chain with state := state })
          | .ok (apply_body_output, state) =>
            let chain1 : BlockChain := { chain with state := state }
            if apply_body_output.block_gas_used ≠ block.header.gas_used then
              (.error .invalidBlock, chain1)
            else if apply_body_output.transactions_root ≠ block.header.transactions_root
              then (.error .invalidBlock, chain1)
            else if apply_body_output.state_root ≠ block.header.state_root then
              (.error .invalidBlock, chain1)
            else if apply_body_output.receipt_root ≠ block.header.receipt_root then
              (.error .invalidBlock, chain1)
            else if apply_body_output.block_logs_bloom ≠ block.header.bloom then
              (.error .invalidBlock, chain1)
            else if apply_body_output.withdrawals_root ≠ block.header.withdrawals_root
              then (.error .invalidBlock, chain1)
            else if apply_body_output.blob_gas_used ≠ block.header.blob_gas_used then
              (.error .invalidBlock, chain1)
            else if apply_body_output.requests_hash ≠ block.header.requests_hash then
              (.error .invalidBlock, chain1)
            else
              let blocks := chain1.blocks ++ [block]
              let blocks :=
                if blocks.length > 255 then blocks.drop (blocks.length - 255)
                else blocks
              (.ok (), { chain1 with blocks := blocks })

/-
Theorems.
-/

instance exceptDecEq {ε α : Type} [DecidableEq ε] [DecidableEq α] :
    DecidableEq (Except ε α)
  | .error e, .error f =>
    if h : e = f then .isTrue (by rw [h]) else .isFalse (by simp [h])
  | .error _, .ok _ => .isFalse (by simp)
  | .ok _, .error _ => .isFalse (by simp)
  | .ok a, .ok b =>
    if h : a = b then .isTrue (by rw [h]) else .isFalse (by simp [h])

/-- Trivial instantiation of the external collaborators, used to evaluate
the embedding at concrete inputs. -/
def extTriv : Ext :=
  { keccak256 := fun _ => List.replicate 32 0,
    rlp_encode := fun _ => [],
    secp256k1_recover := fun _ _ _ _ => .ok [],
    logs_bloom := fun _ => [],
    trie_root := fun _ => [],
    state_root := fun _ => [],
    process_message_call := fun _ _ s =>
      ({ gas_left := 0, refund_counter := 0, logs := [], accounts_to_delete := [],
         touched_accounts := [], error := none, return_data := [] }, s),
    prepare_message := fun caller target value data gas _ _ _ _ auths =>
      { caller := caller, target := target, gas := gas, value := value,
        data := data, code := [], depth := 0, current_target := [],
        code_address := [], should_transfer_value := true, is_static := false,
        accessed_addresses := [], accessed_storage_keys := [],
        authorizations := auths },
    process_withdrawal := fun _ s => s,
    decode_transaction := fun w =>
      match w with
      | .inl t => .ok (.legacy t)
      | .inr _ => .error .invalidBlock,
    encode_transaction := fun _ => [],
    encode_receipt := fun _ _ => [],
    parse_deposit_requests_from_receipt := fun _ => [],
    calculate_excess_blob_gas := fun _ _ => 0,
    calculate_blob_gas_price := fun _ => 1,
    calculate_total_blob_gas := fun _ => 0,
    init_code_cost := fun _ => 0,
    is_valid_delegation := fun _ => false }

/-- C3 counterexample: the claim says the gas-limit check accepts a child
gas limit of 30_029_296 and accepts 29_970_704 under a parent of
30_000_000; the code's bounds are strict, so both are rejected. -/
theorem check_gas_limit_claimed_bounds_false :
    check_gas_limit 30029296 30000000 = false ∧
    check_gas_limit 29970704 30000000 = false := by
  exact ⟨by decide, by decide⟩

/-- C3 (amended): with a parent gas limit of 30_000_000 the maximum
adjustment delta is 29_296, and the bounds are strict: the gas-limit check
accepts 30_029_295 but rejects 30_029_296 and 30_029_297, accepts
29_970_705 but rejects 29_970_704 and 29_970_703, and rejects every gas
limit below 5000; whenever the check fails,
`calculate_base_fee_per_gas` raises `InvalidBlock`. -/
theorem check_gas_limit_boundaries :
    30000000 / GAS_LIMIT_ADJUSTMENT_FACTOR = 29296 ∧
    check_gas_limit 30029295 30000000 = true ∧
    check_gas_limit 30029296 30000000 = false ∧
    check_gas_limit 30029297 30000000 = false ∧
    check_gas_limit 29970705 30000000 = true ∧
    check_gas_limit 29970704 30000000 = false ∧
    check_gas_limit 29970703 30000000 = false ∧
    (∀ g, g < 5000 → check_gas_limit g 30000000 = false) ∧
    (∀ g p u b, check_gas_limit g p = false →
      calculate_base_fee_per_gas g p u b = .error .invalidBlock) := by
  refine ⟨by decide, by decide, by decide, by decide, by decide, by decide, by decide,
    ?_, ?_⟩
  · intro g hg
    simp only [check_gas_limit, GAS_LIMIT_ADJUSTMENT_FACTOR, GAS_LIMIT_MINIMUM]
    split_ifs with h1 h2 h3 <;> first | rfl | omega
  · intro g p u b h
    unfold calculate_base_fee_per_gas
    rw [if_pos (by simp [h])]

/-- Witness for `check_gas_limit_boundaries`: gas limit 0 is rejected. -/
theorem check_gas_limit_boundaries_witness :
    check_gas_limit 0 30000000 = false :=
  check_gas_limit_boundaries.2.2.2.2.2.2.2.1 0 (by decide)

/-- C4: whenever `calculate_base_fee_per_gas` returns, the result is the
EIP-1559 piecewise formula with floor division and target
`parent_gas_limit / 2`; in particular a fully used parent block at gas
limit 30_000_000, base fee 1_000_000_000 gives 1_125_000_000, a parent at
target gives the parent base fee, and an empty parent gives it as well
(delta 0 in the downward branch there is `125_000_000`, so the third case
is 875_000_000). -/
theorem calculate_base_fee_per_gas_formula :
    (∀ g p u b r, calculate_base_fee_per_gas g p u b = .ok r →
      r = if u = p / 2 then b
          else if u > p / 2 then b + max 1 (b * (u - p / 2) / (p / 2) / 8)
          else b - b * (p / 2 - u) / (p / 2) / 8) ∧
    calculate_base_fee_per_gas 30000000 30000000 30000000 1000000000 =
      .ok 1125000000 ∧
    calculate_base_fee_per_gas 30000000 30000000 15000000 1000000000 =
      .ok 1000000000 := by
  refine ⟨?_, by decide, by decide⟩
  intro g p u b r h
  simp only [calculate_base_fee_per_gas, ELASTICITY_MULTIPLIER,
    BASE_FEE_MAX_CHANGE_DENOMINATOR] at h
  split at h
  · exact absurd h (by simp)
  · split at h
    case isTrue heq =>
      cases h
      rw [if_pos heq]
    case isFalse heq =>
      split at h
      case isTrue hgt =>
        cases h
        rw [if_neg heq, if_pos hgt, Nat.max_comm]
      case isFalse hgt =>
        cases h
        rw [if_neg heq, if_neg hgt]

/-- Witness for `calculate_base_fee_per_gas_formula`: the formula
evaluated at the fully-used-parent boundary case. -/
theorem calculate_base_fee_per_gas_formula_witness :
    calculate_base_fee_per_gas 30000000 30000000 30000000 1000000000 =
      .ok 1125000000 ∧
    (1125000000 : Nat) =
      if (30000000 : Nat) = 30000000 / 2 then 1000000000
      else if 30000000 > 30000000 / 2 then
        1000000000 + max 1 (1000000000 * (30000000 - 30000000 / 2) / (30000000 / 2) / 8)
      else 1000000000 - 1000000000 * (30000000 / 2 - 30000000) / (30000000 / 2) / 8 :=
  ⟨by decide,
   calculate_base_fee_per_gas_formula.1 30000000 30000000 30000000 1000000000
     1125000000 (by decide)⟩

/-- C5: `recover_sender` rejects any signature whose `r` is not in
`(0, SECP256K1N)` or whose `s` is not in `(0, SECP256K1N/2]`; for legacy
transactions it additionally rejects any `v` outside
`{27, 28, 35 + 2*chain_id, 36 + 2*chain_id}`; a failure of
`secp256k1_recover` is surfaced as `InvalidBlock`; and on success the
returned sender is bytes 12..32 of `keccak256` of a public key returned
by `secp256k1_recover` on `r` and `s`. -/
theorem recover_sender_spec (ext : Ext) (chain_id : Nat) (tx : Transaction) :
    (¬ (0 < tx.r ∧ tx.r < SECP256K1N) ∨ ¬ (0 < tx.s ∧ tx.s ≤ SECP256K1N / 2) →
      recover_sender ext chain_id tx = .error .invalidBlock) ∧
    (∀ t, tx = .legacy t →
      t.v ≠ 27 → t.v ≠ 28 → t.v ≠ 35 + chain_id * 2 → t.v ≠ 36 + chain_id * 2 →
      recover_sender ext chain_id tx = .error .invalidBlock) ∧
    (0 < tx.r ∧ tx.r < SECP256K1N → 0 < tx.s ∧ tx.s ≤ SECP256K1N / 2 →
      signature_recovery ext chain_id tx = .error () →
      recover_sender ext chain_id tx = .error .invalidBlock) ∧
    (∀ pk, signature_recovery ext chain_id tx = .ok pk →
      ∃ rid hash, ext.secp256k1_recover tx.r tx.s rid hash = .ok pk) ∧
    (∀ a, recover_sender ext chain_id tx = .ok a →
      ∃ pk, a = ((ext.keccak256 pk).drop 12).take 20 ∧
        signature_recovery ext chain_id tx = .ok pk) := by
  refine ⟨?_, ?_, ?_, ?_, ?_⟩
  · intro h
    unfold recover_sender
    rcases h with h | h
    · rw [if_pos (show tx.r = 0 ∨ tx.r ≥ SECP256K1N by omega)]
    · by_cases hr : tx.r = 0 ∨ tx.r ≥ SECP256K1N
      · rw [if_pos hr]
      · rw [if_neg hr, if_pos (show tx.s = 0 ∨ tx.s > SECP256K1N / 2 by omega)]
  · intro t ht h27 h28 h35 h36
    subst ht
    unfold recover_sender
    by_cases hr : Transaction.r (.legacy t) = 0 ∨ Transaction.r (.legacy t) ≥ SECP256K1N
    · rw [if_pos hr]
    · rw [if_neg hr]
      by_cases hs : Transaction.s (.legacy t) = 0 ∨
          Transaction.s (.legacy t) > SECP256K1N / 2
      · rw [if_pos hs]
      · rw [if_neg hs]
        have hsig : signature_recovery ext chain_id (.legacy t) = .error () := by
          simp only [signature_recovery]
          rw [if_neg (show ¬ (t.v = 27 ∨ t.v = 28) by tauto),
            if_pos (show t.v ≠ 35 + chain_id * 2 ∧ t.v ≠ 36 + chain_id * 2 from
              ⟨h35, h36⟩)]
        rw [hsig]
  · intro hr hs hsig
    unfold recover_sender
    rw [if_neg (show ¬ (tx.r = 0 ∨ tx.r ≥ SECP256K1N) by omega),
      if_neg (show ¬ (tx.s = 0 ∨ tx.s > SECP256K1N / 2) by omega), hsig]
  · intro pk h
    cases tx with
    | legacy t =>
      simp only [signature_recovery] at h
      split at h
      · exact ⟨_, _, h⟩
      · split at h
        · exact absurd h (by simp)
        · exact ⟨_, _, h⟩
    | accessList t => simp only [signature_recovery] at h; exact ⟨_, _, h⟩
    | feeMarket t => simp only [signature_recovery] at h; exact ⟨_, _, h⟩
    | blob t => simp only [signature_recovery] at h; exact ⟨_, _, h⟩
    | setCode t => simp only [signature_recovery] at h; exact ⟨_, _, h⟩
  · intro a h
    unfold recover_sender at h
    split at h
    · exact absurd h (by simp)
    · split at h
      · exact absurd h (by simp)
      · cases hsig : signature_recovery ext chain_id tx with
        | error e => rw [hsig] at h; exact absurd h (by simp)
        | ok pk =>
          rw [hsig] at h
          simp only [Except.ok.injEq] at h
          exact ⟨pk, h.symm, rfl⟩

/-- Witness for `recover_sender_spec`: a legacy transaction with `r = 0`
is rejected. -/
theorem recover_sender_spec_witness :
    recover_sender extTriv 1
      (.legacy { nonce := 0, gas_price := 0, gas := 0, to' := none, value := 0,
                 data := [], v := 27, r := 0, s := 1 }) = .error .invalidBlock :=
  (recover_sender_spec extTriv 1
      (.legacy { nonce := 0, gas_price := 0, gas := 0, to' := none, value := 0,
                 data := [], v := 27, r := 0, s := 1 })).1
    (by decide)

/-- C9: `check_transaction` never mutates the state: whatever the
transaction, remaining gas, chain id, base fee and excess blob gas, and
whether it returns a triple or fails, the state it passes back (accounts
with their nonces, balances and code, and all storage) is exactly the
state it was given; admission only reads the state. -/
theorem check_transaction_preserves_state (ext : Ext) (state : State)
    (tx : Transaction) (gas_available chain_id base_fee_per_gas excess_blob_gas : Nat) :
    (check_transaction ext state tx gas_available chain_id base_fee_per_gas
      excess_blob_gas).2 = state := by
  simp only [check_transaction]
  repeat' split
  all_goals rfl

/-- C8: if `check_transaction` succeeds, then the up-front sender debit of
`process_transaction` — `effective_gas_fee + blob_gas_fee`, with
`effective_gas_fee = tx.gas * effective_gas_price` and `blob_gas_fee` the
blob data fee — is at most the sender's balance, so the balance
subtraction never underflows. -/
theorem check_transaction_debit_no_underflow (ext : Ext) (state : State)
    (tx : Transaction) (gas_available chain_id base_fee_per_gas excess_blob_gas : Nat)
    (sender : Address) (effective_gas_price : Nat) (bvh : List Bytes)
    (h : (check_transaction ext state tx gas_available chain_id base_fee_per_gas
        excess_blob_gas).1 = .ok (sender, effective_gas_price, bvh)) :
    tx.gas * effective_gas_price + tx_blob_gas_fee ext excess_blob_gas tx ≤
      (state.get_account sender).balance := by
  cases tx with
  | legacy t =>
    simp only [check_transaction] at h
    split at h
    · simp at h
    split at h
    · simp at h
    split at h
    · simp at h
    split at h
    · simp at h
    split at h
    · simp at h
    rename_i sender_address heq
    split at h
    · simp at h
    rename_i eff0 mgf0 hfee
    split at h
    · simp at h
    split at h
    · simp at h
    rename_i hbal
    split at h
    · simp at h
    simp only [Prod.mk.injEq, Except.ok.injEq] at h
    obtain ⟨h1, h2, h3⟩ := h
    subst h1; subst h2
    split at hfee
    · simp at hfee
    simp only [Except.ok.injEq, Prod.mk.injEq] at hfee
    obtain ⟨he, hm⟩ := hfee
    subst he; subst hm
    simp only [Transaction.value, Transaction.gas] at hbal
    simp only [tx_blob_gas_fee, Transaction.gas]
    have hbal' := Nat.not_lt.mp hbal
    clear * - hbal'
    linarith
  | accessList t =>
    simp only [check_transaction] at h
    split at h
    · simp at h
    split at h
    · simp at h
    split at h
    · simp at h
    split at h
    · simp at h
    split at h
    · simp at h
    rename_i sender_address heq
    split at h
    · simp at h
    rename_i eff0 mgf0 hfee
    split at h
    · simp at h
    split at h
    · simp at h
    rename_i hbal
    split at h
    · simp at h
    simp only [Prod.mk.injEq, Except.ok.injEq] at h
    obtain ⟨h1, h2, h3⟩ := h
    subst h1; subst h2
    split at hfee
    · simp at hfee
    simp only [Except.ok.injEq, Prod.mk.injEq] at hfee
    obtain ⟨he, hm⟩ := hfee
    subst he; subst hm
    simp only [Transaction.value, Transaction.gas] at hbal
    simp only [tx_blob_gas_fee, Transaction.gas]
    have hbal' := Nat.not_lt.mp hbal
    clear * - hbal'
    linarith
  | feeMarket t =>
    simp only [check_transaction] at h
    split at h
    · simp at h
    split at h
    · simp at h
    split at h
    · simp at h
    split at h
    · simp at h
    split at h
    · simp at h
    rename_i sender_address heq
    split at h
    · simp at h
    rename_i eff0 mgf0 hfee
    split at h
    · simp at h
    split at h
    · simp at h
    rename_i hbal
    split at h
    · simp at h
    simp only [Prod.mk.injEq, Except.ok.injEq] at h
    obtain ⟨h1, h2, h3⟩ := h
    subst h1; subst h2
    split at hfee
    · simp at hfee
    rename_i hmp
    split at hfee
    · simp at hfee
    rename_i hbf
    simp only [Except.ok.injEq, Prod.mk.injEq] at hfee
    obtain ⟨he, hm⟩ := hfee
    subst he; subst hm
    simp only [Transaction.value, Transaction.gas] at hbal
    simp only [tx_blob_gas_fee, Transaction.gas]
    have hbal' := Nat.not_lt.mp hbal
    have heff : min t.max_priority_fee_per_gas
        (t.max_fee_per_gas - base_fee_per_gas) + base_fee_per_gas ≤
        t.max_fee_per_gas := by omega
    have hmul := Nat.mul_le_mul_left t.gas heff
    clear * - hbal' hmul
    linarith
  | blob t =>
    simp only [check_transaction] at h
    split at h
    · simp at h
    split at h
    · simp at h
    split at h
    · simp at h
    split at h
    · simp at h
    split at h
    · simp at h
    rename_i sender_address heq
    split at h
    · simp at h
    rename_i eff0 mgf0 hfee
    split at h
    · simp at h
    rename_i mgf1 bvh1 hblob
    split at h
    · simp at h
    rename_i hshape
    split at h
    · simp at h
    split at h
    · simp at h
    rename_i hbal
    split at h
    · simp at h
    simp only [Prod.mk.injEq, Except.ok.injEq] at h
    obtain ⟨h1, h2, h3⟩ := h
    subst h1; subst h2
    split at hfee
    · simp at hfee
    rename_i hmp
    split at hfee
    · simp at hfee
    rename_i hbf
    simp only [Except.ok.injEq, Prod.mk.injEq] at hfee
    obtain ⟨he, hm⟩ := hfee
    subst he; subst hm
    split at hblob
    · simp at hblob
    split at hblob
    · simp at hblob
    rename_i hprice
    simp only [Except.ok.injEq, Prod.mk.injEq] at hblob
    obtain ⟨hb1, hb2⟩ := hblob
    subst hb1; subst hb2
    simp only [Transaction.value, Transaction.gas] at hbal
    simp only [tx_blob_gas_fee, calculate_data_fee, Transaction.gas]
    have hbal' := Nat.not_lt.mp hbal
    have heff : min t.max_priority_fee_per_gas
        (t.max_fee_per_gas - base_fee_per_gas) + base_fee_per_gas ≤
        t.max_fee_per_gas := by omega
    have hmul := Nat.mul_le_mul_left t.gas heff
    have hblobmul := Nat.mul_le_mul_left
      (ext.calculate_total_blob_gas (Transaction.blob t)) (Nat.not_lt.mp hprice)
    clear * - hbal' hmul hblobmul
    linarith
  | setCode t =>
    simp only [check_transaction] at h
    split at h
    · simp at h
    split at h
    · simp at h
    split at h
    · simp at h
    split at h
    · simp at h
    split at h
    · simp at h
    rename_i sender_address heq
    split at h
    · simp at h
    rename_i eff0 mgf0 hfee
    split at h
    · simp at h
    rename_i hshape
    split at h
    · simp at h
    split at h
    · simp at h
    rename_i hbal
    split at h
    · simp at h
    simp only [Prod.mk.injEq, Except.ok.injEq] at h
    obtain ⟨h1, h2, h3⟩ := h
    subst h1; subst h2
    split at hfee
    · simp at hfee
    rename_i hmp
    split at hfee
    · simp at hfee
    rename_i hbf
    simp only [Except.ok.injEq, Prod.mk.injEq] at hfee
    obtain ⟨he, hm⟩ := hfee
    subst he; subst hm
    simp only [Transaction.value, Transaction.gas] at hbal
    simp only [tx_blob_gas_fee, Transaction.gas]
    have hbal' := Nat.not_lt.mp hbal
    have heff : min t.max_priority_fee_per_gas
        (t.max_fee_per_gas - base_fee_per_gas) + base_fee_per_gas ≤
        t.max_fee_per_gas := by omega
    have hmul := Nat.mul_le_mul_left t.gas heff
    clear * - hbal' hmul
    linarith

/-- A fee-free legacy transaction admitted by the empty state, used as a
concrete witness input. -/
def txLegacyW : LegacyTransaction :=
  { nonce := 0, gas_price := 0, gas := 21000, to' := some [], value := 0,
    data := [], v := 27, r := 1, s := 1 }

/-- The empty world state, used as a concrete witness input. -/
def stEmpty : State := { accounts := [], storage := [] }

/-- Witness for `check_transaction_debit_no_underflow`: a successful
admission of a fee-free legacy transaction by the empty state. -/
theorem check_transaction_debit_no_underflow_witness :
    (check_transaction extTriv stEmpty (.legacy txLegacyW) 21000 1 0 0).1 =
      .ok (List.replicate 20 0, 0, []) ∧
    (Transaction.legacy txLegacyW).gas * 0 +
      tx_blob_gas_fee extTriv 0 (.legacy txLegacyW) ≤
      (stEmpty.get_account (List.replicate 20 0)).balance :=
  ⟨by decide,
   check_transaction_debit_no_underflow extTriv stEmpty (.legacy txLegacyW)
     21000 1 0 0 (List.replicate 20 0) 0 [] (by decide)⟩

theorem lookupAccount_remove_self (l : List (Address × Account)) (a : Address) :
    lookupAccount (removeAccount l a) a = none := by
  induction l with
  | nil => rfl
  | cons p rest ih =>
    simp only [removeAccount]
    split
    · exact ih
    · simp only [lookupAccount]
      rw [if_neg (by assumption)]
      exact ih

theorem lookupAccount_remove_ne (l : List (Address × Account)) (a b : Address)
    (h : b ≠ a) : lookupAccount (removeAccount l a) b = lookupAccount l b := by
  induction l with
  | nil => rfl
  | cons p rest ih =>
    simp only [removeAccount, lookupAccount]
    by_cases hpa : p.1 = a
    · rw [if_pos hpa, if_neg (show ¬ p.1 = b by rw [hpa]; exact fun hh => h hh.symm)]
      exact ih
    · rw [if_neg hpa]
      simp only [lookupAccount]
      by_cases hpb : p.1 = b
      · rw [if_pos hpb, if_pos hpb]
      · rw [if_neg hpb, if_neg hpb]
        exact ih

theorem get_account_set_self (st : State) (a : Address) (acc : Account) :
    (st.set_account a acc).get_account a = acc := by
  simp [State.set_account, State.get_account, lookupAccount]

theorem get_account_set_ne (st : State) (a b : Address) (acc : Account)
    (h : b ≠ a) : (st.set_account a acc).get_account b = st.get_account b := by
  simp only [State.set_account, State.get_account, lookupAccount]
  rw [if_neg (fun hh => h hh.symm)]

theorem account_exists_set_ne (st : State) (a b : Address) (acc : Account)
    (h : b ≠ a) : (st.set_account a acc).account_exists b = st.account_exists b := by
  simp only [State.account_exists, State.set_account, lookupAccount]
  rw [if_neg (fun hh => h hh.symm)]

theorem get_account_destroy_ne (st : State) (a b : Address) (h : b ≠ a) :
    (st.destroy_account a).get_account b = st.get_account b := by
  simp only [State.destroy_account, State.get_account]
  rw [lookupAccount_remove_ne _ _ _ h]

theorem account_exists_destroy_ne (st : State) (a b : Address) (h : b ≠ a) :
    (st.destroy_account a).account_exists b = st.account_exists b := by
  simp only [State.destroy_account, State.account_exists]
  rw [lookupAccount_remove_ne _ _ _ h]

theorem account_exists_destroy_self (st : State) (a : Address) :
    (st.destroy_account a).account_exists a = false := by
  simp [State.destroy_account, State.account_exists, lookupAccount_remove_self]

theorem exists_and_empty_set_ne (st : State) (a b : Address) (acc : Account)
    (h : b ≠ a) : (st.set_account a acc).account_exists_and_is_empty b =
      st.account_exists_and_is_empty b := by
  simp only [State.account_exists_and_is_empty, account_exists_set_ne _ _ _ _ h,
    get_account_set_ne _ _ _ _ h]

theorem get_account_foldl_destroy (l : List Address) (st : State) (b : Address)
    (h : b ∉ l) :
    (l.foldl (fun s x => s.destroy_account x) st).get_account b =
      st.get_account b := by
  induction l generalizing st with
  | nil => rfl
  | cons x rest ih =>
    have hx : b ≠ x := fun hh => h (hh ▸ List.mem_cons_self x rest)
    have hr : b ∉ rest := fun hm => h (List.mem_cons_of_mem _ hm)
    simp only [List.foldl_cons]
    rw [ih _ hr, get_account_destroy_ne _ _ _ hx]

theorem account_exists_foldl_destroy (l : List Address) (st : State) (b : Address)
    (h : b ∉ l) :
    (l.foldl (fun s x => s.destroy_account x) st).account_exists b =
      st.account_exists b := by
  induction l generalizing st with
  | nil => rfl
  | cons x rest ih =>
    have hx : b ≠ x := fun hh => h (hh ▸ List.mem_cons_self x rest)
    have hr : b ∉ rest := fun hm => h (List.mem_cons_of_mem _ hm)
    simp only [List.foldl_cons]
    rw [ih _ hr, account_exists_destroy_ne _ _ _ hx]

theorem get_account_destroy_touched (touched : List Address) (st : State)
    (b : Address) (h : b ∉ touched) :
    (st.destroy_touched_empty_accounts touched).get_account b =
      st.get_account b := by
  induction touched generalizing st with
  | nil => rfl
  | cons x rest ih =>
    have hx : b ≠ x := fun hh => h (hh ▸ List.mem_cons_self x rest)
    have hr : b ∉ rest := fun hm => h (List.mem_cons_of_mem _ hm)
    show ((if st.account_exists_and_is_empty x then st.destroy_account x
        else st).destroy_touched_empty_accounts rest).get_account b = _
    rw [ih _ hr]
    split
    · exact get_account_destroy_ne _ _ _ hx
    · rfl

theorem account_exists_destroy_touched (touched : List Address) (st : State)
    (b : Address) (h : b ∉ touched) :
    (st.destroy_touched_empty_accounts touched).account_exists b =
      st.account_exists b := by
  induction touched generalizing st with
  | nil => rfl
  | cons x rest ih =>
    have hx : b ≠ x := fun hh => h (hh ▸ List.mem_cons_self x rest)
    have hr : b ∉ rest := fun hm => h (List.mem_cons_of_mem _ hm)
    show ((if st.account_exists_and_is_empty x then st.destroy_account x
        else st).destroy_touched_empty_accounts rest).account_exists b = _
    rw [ih _ hr]
    split
    · exact account_exists_destroy_ne _ _ _ hx
    · rfl

/-- C6: after the EVM returns `(output, state1)`, `process_transaction`
computes `gas_used_before_refund = tx.gas - gas_left` and
`gas_refund = min(gas_used_before_refund / 5, refund_counter)`, returns
net gas `gas_used_before_refund - gas_refund`, credits the sender by
`(gas_left + gas_refund) * env.gas_price`, credits the coinbase by
`(tx.gas - gas_left - gas_refund) * (env.gas_price - env.base_fee_per_gas)`
unless the resulting coinbase balance would be zero, in which case an
existing empty coinbase is destroyed instead.  (Aliasing side conditions:
the coinbase differs from the sender and neither is in the EVM's deletion
or touched sets.) -/
theorem process_transaction_accounting (ext : Ext) (env : Env) (state : State)
    (tx : Transaction) (output : MessageCallOutput) (state1 : State)
    (hcall : ext.process_message_call (tx_message ext env state tx) env
        (sender_state_after_gas_fee ext env state tx) = (output, state1))
    (hsc : env.coinbase ≠ env.origin)
    (hsd : env.origin ∉ output.accounts_to_delete)
    (hst : env.origin ∉ output.touched_accounts)
    (hcd : env.coinbase ∉ output.accounts_to_delete)
    (hct : env.coinbase ∉ output.touched_accounts) :
    (process_transaction ext env state tx).1.1 =
      (tx.gas - output.gas_left) -
        min ((tx.gas - output.gas_left) / 5) output.refund_counter ∧
    ((process_transaction ext env state tx).2.get_account env.origin).balance =
      (state1.get_account env.origin).balance +
        (output.gas_left +
          min ((tx.gas - output.gas_left) / 5) output.refund_counter) *
          env.gas_price ∧
    ((state1.get_account env.coinbase).balance +
        (tx.gas - output.gas_left -
          min ((tx.gas - output.gas_left) / 5) output.refund_counter) *
          (env.gas_price - env.base_fee_per_gas) ≠ 0 →
      ((process_transaction ext env state tx).2.get_account env.coinbase).balance =
        (state1.get_account env.coinbase).balance +
          (tx.gas - output.gas_left -
            min ((tx.gas - output.gas_left) / 5) output.refund_counter) *
            (env.gas_price - env.base_fee_per_gas)) ∧
    ((state1.get_account env.coinbase).balance +
        (tx.gas - output.gas_left -
          min ((tx.gas - output.gas_left) / 5) output.refund_counter) *
          (env.gas_price - env.base_fee_per_gas) = 0 →
      state1.account_exists_and_is_empty env.coinbase = true →
      (process_transaction ext env state tx).2.account_exists env.coinbase = false) := by
  have hsc' : env.origin ≠ env.coinbase := fun hh => hsc hh.symm
  simp only [process_transaction, hcall]
  have hcb1 :
      ((state1.set_account_balance env.origin
          ((state1.get_account env.origin).balance +
            (output.gas_left +
              min ((tx.gas - output.gas_left) / 5) output.refund_counter) *
              env.gas_price)).get_account env.coinbase).balance =
        (state1.get_account env.coinbase).balance := by
    rw [State.set_account_balance, get_account_set_ne _ _ _ _ hsc]
  refine ⟨by trivial, ?_, ?_, ?_⟩
  · rw [get_account_destroy_touched _ _ _ hst, get_account_foldl_destroy _ _ _ hsd]
    split
    · rw [State.set_account_balance, get_account_set_ne _ _ _ _ hsc',
        State.set_account_balance, get_account_set_self]
    · split
      · rw [get_account_destroy_ne _ _ _ hsc',
          State.set_account_balance, get_account_set_self]
      · rw [State.set_account_balance, get_account_set_self]
  · intro hnz
    rw [get_account_destroy_touched _ _ _ hct, get_account_foldl_destroy _ _ _ hcd]
    rw [if_pos (by rw [hcb1]; exact hnz)]
    rw [State.set_account_balance, get_account_set_self]
    exact congrArg (fun n => n + (tx.gas - output.gas_left -
      min ((tx.gas - output.gas_left) / 5) output.refund_counter) *
      (env.gas_price - env.base_fee_per_gas)) hcb1
  · intro hz hempty
    rw [account_exists_destroy_touched _ _ _ hct,
      account_exists_foldl_destroy _ _ _ hcd]
    rw [if_neg (by rw [hcb1]; exact fun hh => hh hz)]
    rw [if_pos (by
      rw [State.set_account_balance, exists_and_empty_set_ne _ _ _ _ hsc]
      exact hempty)]
    exact account_exists_destroy_self _ _

/-- The output the trivial EVM collaborator returns for every call. -/
def outW : MessageCallOutput :=
  { gas_left := 0, refund_counter := 0, logs := [], accounts_to_delete := [],
    touched_accounts := [], error := none, return_data := [] }

/-- A concrete per-transaction environment, used as a witness input. -/
def envW : Env :=
  { caller := [1], block_hashes := [], origin := [1], coinbase := [2],
    number := 0, gas_limit := 30000000, base_fee_per_gas := 0, gas_price := 1,
    time := 0, prev_randao := [], chain_id := 1, excess_blob_gas := 0,
    blob_versioned_hashes := [] }

/-- Witness for `process_transaction_accounting`: net gas of a concrete
fee-free legacy transaction. -/
theorem process_transaction_accounting_witness :
    (process_transaction extTriv envW stEmpty (.legacy txLegacyW)).1.1 =
      ((Transaction.legacy txLegacyW).gas - outW.gas_left) -
        min (((Transaction.legacy txLegacyW).gas - outW.gas_left) / 5)
          outW.refund_counter :=
  (process_transaction_accounting extTriv envW stEmpty (.legacy txLegacyW) outW
    (sender_state_after_gas_fee extTriv envW stEmpty (.legacy txLegacyW))
    rfl (by decide) (by decide) (by decide) (by decide) (by decide)).1

theorem flatten_map_inj (f : Bytes → Bytes) (hlen : ∀ b, (f b).length = 32)
    (hinj : Function.Injective f) : ∀ l1 l2 : List Bytes,
    List.flatten (l1.map f) = List.flatten (l2.map f) → l1 = l2 := by
  intro l1
  induction l1 with
  | nil =>
    intro l2 h
    cases l2 with
    | nil => rfl
    | cons y ys =>
      exfalso
      have hl := congrArg List.length h
      simp only [List.map_nil, List.flatten_nil, List.length_nil, List.map_cons,
        List.flatten_cons, List.length_append, hlen] at hl
      omega
  | cons x xs ih =>
    intro l2 h
    cases l2 with
    | nil =>
      exfalso
      have hl := congrArg List.length h
      simp only [List.map_nil, List.flatten_nil, List.length_nil, List.map_cons,
        List.flatten_cons, List.length_append, hlen] at hl
      omega
    | cons y ys =>
      simp only [List.map_cons, List.flatten_cons] at h
      have hlen2 : (f x).length = (f y).length := by rw [hlen, hlen]
      obtain ⟨h1, h2⟩ := List.append_inj h hlen2
      rw [hinj h1, ih ys h2]

theorem compute_requests_hash_inj (ext : Ext)
    (hlen : ∀ b, (ext.keccak256 b).length = 32)
    (hinj : Function.Injective ext.keccak256) :
    ∀ r1 r2 : List Bytes, r1 ≠ r2 →
      compute_requests_hash ext r1 ≠ compute_requests_hash ext r2 :=
  fun r1 r2 hne hh =>
    hne (flatten_map_inj ext.keccak256 hlen hinj r1 r2 (hinj hh))

/-- C7: the execution-layer request list is built in strict type-ascending
order — `0x00 ‖ deposits` exactly when the deposit bytes are non-empty,
then `0x01 ‖ withdrawal-predeploy return data` exactly when non-empty,
then `0x02 ‖ consolidation-predeploy return data` exactly when non-empty —
the requests hash is `keccak256` of the concatenation of `keccak256` of
each included request, and (for an injective fixed-width `keccak256`)
reordering or dropping any included request changes the hash. -/
theorem process_general_purpose_requests_spec (ext : Ext) (deposit_requests : Bytes)
    (state : State) (block_hashes : List Bytes) (coinbase : Address)
    (block_number base_fee_per_gas block_gas_limit block_time : Nat)
    (prev_randao : Bytes) (chain_id excess_blob_gas : Nat)
    (wOut : MessageCallOutput) (s1 : State) (cOut : MessageCallOutput) (s2 : State)
    (hw : process_system_transaction ext WITHDRAWAL_REQUEST_PREDEPLOY_ADDRESS []
        block_hashes coinbase block_number base_fee_per_gas block_gas_limit
        block_time prev_randao state chain_id excess_blob_gas = (wOut, s1))
    (hc : process_system_transaction ext CONSOLIDATION_REQUEST_PREDEPLOY_ADDRESS []
        block_hashes coinbase block_number base_fee_per_gas block_gas_limit
        block_time prev_randao s1 chain_id excess_blob_gas = (cOut, s2)) :
    process_general_purpose_requests ext deposit_requests state block_hashes
        coinbase block_number base_fee_per_gas block_gas_limit block_time
        prev_randao chain_id excess_blob_gas =
      ((if deposit_requests ≠ [] then
          [DEPOSIT_REQUEST_TYPE ++ deposit_requests] else []) ++
        (if wOut.return_data ≠ [] then
          [WITHDRAWAL_REQUEST_TYPE ++ wOut.return_data] else []) ++
        (if cOut.return_data ≠ [] then
          [CONSOLIDATION_REQUEST_TYPE ++ cOut.return_data] else []), s2) ∧
    (∀ requests, compute_requests_hash ext requests =
      ext.keccak256 (List.flatten (requests.map ext.keccak256))) ∧
    ((∀ b, (ext.keccak256 b).length = 32) → Function.Injective ext.keccak256 →
      ∀ r1 r2 : List Bytes, r1 ≠ r2 →
        compute_requests_hash ext r1 ≠ compute_requests_hash ext r2) := by
  refine ⟨?_, fun requests => rfl, compute_requests_hash_inj ext⟩
  simp only [process_general_purpose_requests, hw, hc]
  simp only [gt_iff_lt, List.length_pos]
  split_ifs <;> simp

/-- Witness for `process_general_purpose_requests_spec`: a concrete run
with one deposit byte string and empty predeploy returns. -/
theorem process_general_purpose_requests_spec_witness :
    process_general_purpose_requests extTriv [7] stEmpty [] [] 0 0 0 0 [] 1 0 =
      ((if ([7] : Bytes) ≠ [] then [DEPOSIT_REQUEST_TYPE ++ [7]] else []) ++
        (if outW.return_data ≠ [] then
          [WITHDRAWAL_REQUEST_TYPE ++ outW.return_data] else []) ++
        (if outW.return_data ≠ [] then
          [CONSOLIDATION_REQUEST_TYPE ++ outW.return_data] else []), stEmpty) :=
  (process_general_purpose_requests_spec extTriv [7] stEmpty [] [] 0 0 0 0 [] 1 0
    outW stEmpty outW stEmpty rfl rfl).1

/-- Sum of `calculate_total_blob_gas` over the transactions of a block
body that decode successfully. -/
def sum_blob_gas (ext : Ext) : List TxWire → Nat
  | [] => 0
  | w :: rest =>
    (match ext.decode_transaction w with
     | .ok tx => ext.calculate_total_blob_gas tx
     | .error _ => 0) + sum_blob_gas ext rest

/-- Replace the blob-gas accumulator of a loop state. -/
def BodyState.with_blob (bs : BodyState) (n : Nat) : BodyState :=
  { bs with blob_gas_used := n }

theorem apply_transactions_blob_acc (ext : Ext) (block_hashes : List Bytes)
    (coinbase : Address)
    (block_number base_fee_per_gas block_gas_limit block_time : Nat)
    (prev_randao : Bytes) (chain_id excess_blob_gas : Nat) :
    ∀ (txs : List TxWire) (i : Nat) (bs : BodyState) (a : Nat),
      apply_transactions ext block_hashes coinbase block_number base_fee_per_gas
          block_gas_limit block_time prev_randao chain_id excess_blob_gas txs i
          (bs.with_blob a) =
        Except.map (fun bs2 => bs2.with_blob (a + sum_blob_gas ext txs))
          (apply_transactions ext block_hashes coinbase block_number
            base_fee_per_gas block_gas_limit block_time prev_randao chain_id
            excess_blob_gas txs i bs) := by
  intro txs
  induction txs with
  | nil =>
    intro i bs a
    simp [apply_transactions, sum_blob_gas, BodyState.with_blob, Except.map]
  | cons w rest ih =>
    intro i bs a
    simp only [apply_transactions, sum_blob_gas]
    cases hdec : ext.decode_transaction w with
    | error e => simp [BodyState.with_blob, Except.map]
    | ok tx =>
      simp only [BodyState.with_blob]
      rcases hchk : check_transaction ext bs.state tx bs.gas_available chain_id
          base_fee_per_gas excess_blob_gas with ⟨res, st⟩
      cases res with
      | error e => simp [hchk, Except.map]
      | ok triple =>
        obtain ⟨sender_address, effective_gas_price, blob_versioned_hashes⟩ := triple
        rcases hpt : process_transaction ext
            (make_tx_env block_hashes coinbase block_number base_fee_per_gas
              block_gas_limit block_time prev_randao chain_id excess_blob_gas
              sender_address effective_gas_price blob_versioned_hashes) st tx
          with ⟨⟨gas_used, logs, error⟩, st2⟩
        simp only [hchk, hpt]
        have hb := ih (i + 1)
          { state := st2, gas_available := bs.gas_available - gas_used,
            transactions_trie := trie_set bs.transactions_trie
              (ext.rlp_encode (.uint i)) (ext.encode_transaction tx),
            receipts_trie := trie_set bs.receipts_trie (ext.rlp_encode (.uint i))
              (make_receipt ext tx error
                (block_gas_limit - (bs.gas_available - gas_used)) logs),
            block_logs := bs.block_logs ++ logs,
            deposit_requests := bs.deposit_requests ++
              ext.parse_deposit_requests_from_receipt
                (make_receipt ext tx error
                  (block_gas_limit - (bs.gas_available - gas_used)) logs),
            blob_gas_used := bs.blob_gas_used + ext.calculate_total_blob_gas tx }
          (a + ext.calculate_total_blob_gas tx)
        simp only [BodyState.with_blob] at hb
        rw [hb, Nat.add_assoc]

/-- C10: `apply_body` places no upper bound on total blob gas: the
blob-gas accumulator of its transaction loop is never read back — running
the loop with any other initial accumulator value gives the same
success-or-failure outcome and the same components except that the
accumulator is offset, finishing at the initial value plus the sum of
`calculate_total_blob_gas` over the decoded transactions — on success the
output's `blob_gas_used` is exactly that sum, and the only block-level
constraint on it is the equality check against `header.blob_gas_used` in
`state_transition`: a successful `state_transition` forces the computed
`blob_gas_used` to equal the header field. -/
theorem apply_body_blob_gas_unbounded (ext : Ext) :
    (∀ block_hashes coinbase block_number base_fee_per_gas block_gas_limit
        block_time prev_randao chain_id excess_blob_gas
        (txs : List TxWire) (i : Nat) (bs : BodyState) (a : Nat),
      apply_transactions ext block_hashes coinbase block_number base_fee_per_gas
          block_gas_limit block_time prev_randao chain_id excess_blob_gas txs i
          (bs.with_blob a) =
        Except.map (fun bs2 => bs2.with_blob (a + sum_blob_gas ext txs))
          (apply_transactions ext block_hashes coinbase block_number
            base_fee_per_gas block_gas_limit block_time prev_randao chain_id
            excess_blob_gas txs i bs)) ∧
    (∀ state block_hashes coinbase block_number base_fee_per_gas block_gas_limit
        block_time prev_randao (transactions : List TxWire) chain_id withdrawals
        parent_beacon_block_root excess_blob_gas out s2,
      apply_body ext state block_hashes coinbase block_number base_fee_per_gas
          block_gas_limit block_time prev_randao transactions chain_id
          withdrawals parent_beacon_block_root excess_blob_gas = .ok (out, s2) →
      out.blob_gas_used = sum_blob_gas ext transactions) ∧
    (∀ (chain : BlockChain) (block : Block) (parent_block : Block) out s2,
      chain.blocks.getLast? = some parent_block →
      (state_transition ext chain block).1 = .ok () →
      apply_body ext chain.state (get_last_256_block_hashes ext chain)
          block.header.coinbase block.header.number block.header.base_fee_per_gas
          block.header.gas_limit block.header.timestamp block.header.prev_randao
          block.transactions chain.chain_id block.withdrawals
          block.header.parent_beacon_block_root
          (ext.calculate_excess_blob_gas block.header parent_block.header) =
        .ok (out, s2) →
      out.blob_gas_used = block.header.blob_gas_used) := by
  have hloop := apply_transactions_blob_acc ext
  refine ⟨fun bh cb bn bf bgl bt pr cid ebg => hloop bh cb bn bf bgl bt pr cid ebg,
    ?_, ?_⟩
  · intro state bh cb bn bf bgl bt pr txs cid wds pbr ebg out s2 h
    simp only [apply_body] at h
    rcases hs1 : process_system_transaction ext BEACON_ROOTS_ADDRESS pbr bh cb
        bn bf bgl bt pr state cid ebg with ⟨o1, st1⟩
    simp only [hs1] at h
    rcases hs2 : process_system_transaction ext HISTORY_STORAGE_ADDRESS
        (bh.getLastD []) bh cb bn bf bgl bt pr st1 cid ebg with ⟨o2, st2⟩
    simp only [hs2] at h
    rcases happ : apply_transactions ext bh cb bn bf bgl bt pr cid ebg txs 0
        { state := st2, gas_available := bgl, transactions_trie := [],
          receipts_trie := [], block_logs := [], deposit_requests := [],
          blob_gas_used := 0 } with bse | bs
    · simp only [happ] at h
      exact absurd h (by simp)
    · simp only [happ] at h
      have hsum : bs.blob_gas_used = sum_blob_gas ext txs := by
        have heq := hloop bh cb bn bf bgl bt pr cid ebg txs 0
          { state := st2, gas_available := bgl, transactions_trie := [],
            receipts_trie := [], block_logs := [], deposit_requests := [],
            blob_gas_used := 0 } 0
        simp only [BodyState.with_blob] at heq
        rw [happ] at heq
        simp only [Except.map, Except.ok.injEq] at heq
        have hb := congrArg BodyState.blob_gas_used heq
        simpa using hb
      rcases hwd : apply_withdrawals ext wds 0 ([], bs.state) with ⟨wtrie, s3⟩
      simp only [hwd] at h
      rcases hreq : process_general_purpose_requests ext bs.deposit_requests s3
          bh cb bn bf bgl bt pr cid ebg with ⟨reqs, s4⟩
      simp only [hreq, Except.ok.injEq, Prod.mk.injEq] at h
      rw [← h.1]
      exact hsum
  · intro chain block parent_block out s2 hpb hok happly
    unfold state_transition at hok
    split at hok
    next heq =>
      rw [hpb] at heq
      exact absurd heq (by simp)
    next pb heq =>
      rw [hpb] at heq
      injection heq with hpbeq
      subst hpbeq
      by_cases hx1 : block.header.excess_blob_gas ≠
          ext.calculate_excess_blob_gas block.header parent_block.header
      · rw [if_pos hx1] at hok
        exact absurd hok (by simp)
      rw [if_neg hx1] at hok
      split at hok
      next e heq2 => exact absurd hok (by simp)
      next u heq2 =>
      by_cases hx2 : block.ommers ≠ []
      · rw [if_pos hx2] at hok
        exact absurd hok (by simp)
      rw [if_neg hx2] at hok
      split at hok
      next e st heq3 =>
        rw [happly] at heq3
        exact absurd heq3 (by simp)
      next abo st heq3 =>
      rw [happly] at heq3
      simp only [Except.ok.injEq, Prod.mk.injEq] at heq3
      obtain ⟨h1, h2⟩ := heq3
      subst h1
      subst h2
      by_cases hc1 : out.block_gas_used ≠ block.header.gas_used
      · rw [if_pos hc1] at hok
        exact absurd hok (by simp)
      rw [if_neg hc1] at hok
      by_cases hc2 : out.transactions_root ≠ block.header.transactions_root
      · rw [if_pos hc2] at hok
        exact absurd hok (by simp)
      rw [if_neg hc2] at hok
      by_cases hc3 : out.state_root ≠ block.header.state_root
      · rw [if_pos hc3] at hok
        exact absurd hok (by simp)
      rw [if_neg hc3] at hok
      by_cases hc4 : out.receipt_root ≠ block.header.receipt_root
      · rw [if_pos hc4] at hok
        exact absurd hok (by simp)
      rw [if_neg hc4] at hok
      by_cases hc5 : out.block_logs_bloom ≠ block.header.bloom
      · rw [if_pos hc5] at hok
        exact absurd hok (by simp)
      rw [if_neg hc5] at hok
      by_cases hc6 : out.withdrawals_root ≠ block.header.withdrawals_root
      · rw [if_pos hc6] at hok
        exact absurd hok (by simp)
      rw [if_neg hc6] at hok
      by_cases hc7 : out.blob_gas_used ≠ block.header.blob_gas_used
      · rw [if_pos hc7] at hok
        exact absurd hok (by simp)
      exact not_not.mp hc7

/-- The output of `apply_body` on an empty block body under the trivial
collaborators. -/
def abOutW : ApplyBodyOutput :=
  { block_gas_used := 0, transactions_root := [], receipt_root := [],
    block_logs_bloom := [], state_root := [], withdrawals_root := [],
    blob_gas_used := 0, requests_hash := List.replicate 32 0 }

/-- Witness for `apply_body_blob_gas_unbounded`: an empty body's
blob gas usage is the (empty) sum. -/
theorem apply_body_blob_gas_unbounded_witness :
    apply_body extTriv stEmpty [] [] 0 0 0 0 [] [] 1 [] [] 0 =
      .ok (abOutW, stEmpty) ∧
    abOutW.blob_gas_used = sum_blob_gas extTriv [] :=
  ⟨by decide,
   (apply_body_blob_gas_unbounded extTriv).2.1 stEmpty [] [] 0 0 0 0 [] [] 1 []
     [] 0 abOutW stEmpty (by decide)⟩

/-- The disjunction of the eight header-vs-`ApplyBodyOutput` comparisons
performed by `state_transition`. -/
def header_mismatch (out : ApplyBodyOutput) (h : Header) : Prop :=
  out.block_gas_used ≠ h.gas_used ∨
  out.transactions_root ≠ h.transactions_root ∨
  out.state_root ≠ h.state_root ∨
  out.receipt_root ≠ h.receipt_root ∨
  out.block_logs_bloom ≠ h.bloom ∨
  out.withdrawals_root ≠ h.withdrawals_root ∨
  out.blob_gas_used ≠ h.blob_gas_used ∨
  out.requests_hash ≠ h.requests_hash

/-- The `apply_body` invocation made by `state_transition` for a given
parent block. -/
def apply_body_call (ext : Ext) (chain : BlockChain) (block : Block) (pb : Block) :
    Except (Err × State) (ApplyBodyOutput × State) :=
  apply_body ext chain.state (get_last_256_block_hashes ext chain)
    block.header.coinbase block.header.number block.header.base_fee_per_gas
    block.header.gas_limit block.header.timestamp block.header.prev_randao
    block.transactions chain.chain_id block.withdrawals
    block.header.parent_beacon_block_root
    (ext.calculate_excess_blob_gas block.header pb.header)

/-- Complete case analysis of `state_transition`: either it fails with
`InvalidBlock`, leaves the blocks list unchanged, and one of the checks is
the culprit; or it succeeds, all checks passed, and the chain carries the
new state and the appended, pruned blocks list. -/
theorem state_transition_inv (ext : Ext) (chain : BlockChain) (block : Block)
    (r : Except Err Unit) (c2 : BlockChain)
    (h : state_transition ext chain block = (r, c2)) :
    (r = .error .invalidBlock ∧ c2.blocks = chain.blocks ∧
      (chain.blocks.getLast? = none ∨
       ∃ pb, chain.blocks.getLast? = some pb ∧
         (block.header.excess_blob_gas ≠
            ext.calculate_excess_blob_gas block.header pb.header ∨
          (∃ e, validate_header ext block.header pb.header = .error e) ∨
          block.ommers ≠ [] ∨
          (∃ es, apply_body_call ext chain block pb = .error es) ∨
          (∃ out s2, apply_body_call ext chain block pb = .ok (out, s2) ∧
            header_mismatch out block.header)))) ∨
    (r = .ok () ∧
      ∃ pb out s2,
        chain.blocks.getLast? = some pb ∧
        block.header.excess_blob_gas =
          ext.calculate_excess_blob_gas block.header pb.header ∧
        validate_header ext block.header pb.header = .ok () ∧
        block.ommers = [] ∧
        apply_body_call ext chain block pb = .ok (out, s2) ∧
        ¬ header_mismatch out block.header ∧
        c2 = { chain with
               state := s2,
               blocks := if (chain.blocks ++ [block]).length > 255 then
                   (chain.blocks ++ [block]).drop
                     ((chain.blocks ++ [block]).length - 255)
                 else chain.blocks ++ [block] }) := by
  unfold state_transition at h
  split at h
  next heq =>
    injection h with h1 h2
    exact .inl ⟨h1.symm, by rw [← h2], .inl heq⟩
  next pb heq =>
    by_cases hx1 : block.header.excess_blob_gas ≠
        ext.calculate_excess_blob_gas block.header pb.header
    · rw [if_pos hx1] at h
      injection h with h1 h2
      exact .inl ⟨h1.symm, by rw [← h2], .inr ⟨pb, heq, .inl hx1⟩⟩
    rw [if_neg hx1] at h
    split at h
    next e heq2 =>
      cases e
      injection h with h1 h2
      exact .inl ⟨h1.symm, by rw [← h2], .inr ⟨pb, heq, .inr (.inl ⟨_, heq2⟩)⟩⟩
    next u heq2 =>
    cases u
    by_cases hx2 : block.ommers ≠ []
    · rw [if_pos hx2] at h
      injection h with h1 h2
      exact .inl ⟨h1.symm, by rw [← h2], .inr ⟨pb, heq, .inr (.inr (.inl hx2))⟩⟩
    rw [if_neg hx2] at h
    split at h
    next e st heq3 =>
      cases e
      injection h with h1 h2
      refine .inl ⟨h1.symm, by rw [← h2], .inr ⟨pb, heq,
        .inr (.inr (.inr (.inl ⟨_, heq3⟩)))⟩⟩
    next abo st heq3 =>
    by_cases hc1 : abo.block_gas_used ≠ block.header.gas_used
    · rw [if_pos hc1] at h
      injection h with h1 h2
      exact .inl ⟨h1.symm, by rw [← h2], .inr ⟨pb, heq,
        .inr (.inr (.inr (.inr ⟨abo, st, heq3, .inl hc1⟩)))⟩⟩
    rw [if_neg hc1] at h
    by_cases hc2 : abo.transactions_root ≠ block.header.transactions_root
    · rw [if_pos hc2] at h
      injection h with h1 h2
      exact .inl ⟨h1.symm, by rw [← h2], .inr ⟨pb, heq,
        .inr (.inr (.inr (.inr ⟨abo, st, heq3, .inr (.inl hc2)⟩)))⟩⟩
    rw [if_neg hc2] at h
    by_cases hc3 : abo.state_root ≠ block.header.state_root
    · rw [if_pos hc3] at h
      injection h with h1 h2
      exact .inl ⟨h1.symm, by rw [← h2], .inr ⟨pb, heq,
        .inr (.inr (.inr (.inr ⟨abo, st, heq3, .inr (.inr (.inl hc3))⟩)))⟩⟩
    rw [if_neg hc3] at h
    by_cases hc4 : abo.receipt_root ≠ block.header.receipt_root
    · rw [if_pos hc4] at h
      injection h with h1 h2
      exact .inl ⟨h1.symm, by rw [← h2], .inr ⟨pb, heq,
        .inr (.inr (.inr (.inr ⟨abo, st, heq3,
          .inr (.inr (.inr (.inl hc4)))⟩)))⟩⟩
    rw [if_neg hc4] at h
    by_cases hc5 : abo.block_logs_bloom ≠ block.header.bloom
    · rw [if_pos hc5] at h
      injection h with h1 h2
      exact .inl ⟨h1.symm, by rw [← h2], .inr ⟨pb, heq,
        .inr (.inr (.inr (.inr ⟨abo, st, heq3,
          .inr (.inr (.inr (.inr (.inl hc5))))⟩)))⟩⟩
    rw [if_neg hc5] at h
    by_cases hc6 : abo.withdrawals_root ≠ block.header.withdrawals_root
    · rw [if_pos hc6] at h
      injection h with h1 h2
      exact .inl ⟨h1.symm, by rw [← h2], .inr ⟨pb, heq,
        .inr (.inr (.inr (.inr ⟨abo, st, heq3,
          .inr (.inr (.inr (.inr (.inr (.inl hc6)))))⟩)))⟩⟩
    rw [if_neg hc6] at h
    by_cases hc7 : abo.blob_gas_used ≠ block.header.blob_gas_used
    · rw [if_pos hc7] at h
      injection h with h1 h2
      exact .inl ⟨h1.symm, by rw [← h2], .inr ⟨pb, heq,
        .inr (.inr (.inr (.inr ⟨abo, st, heq3,
          .inr (.inr (.inr (.inr (.inr (.inr (.inl hc7))))))⟩)))⟩⟩
    rw [if_neg hc7] at h
    by_cases hc8 : abo.requests_hash ≠ block.header.requests_hash
    · rw [if_pos hc8] at h
      injection h with h1 h2
      exact .inl ⟨h1.symm, by rw [← h2], .inr ⟨pb, heq,
        .inr (.inr (.inr (.inr ⟨abo, st, heq3,
          .inr (.inr (.inr (.inr (.inr (.inr (.inr hc8))))))⟩)))⟩⟩
    rw [if_neg hc8] at h
    injection h with h1 h2
    refine .inr ⟨h1.symm, pb, abo, st, heq, not_not.mp hx1, heq2, not_not.mp hx2,
      heq3, ?_, h2.symm⟩
    intro hm
    rcases hm with hm | hm | hm | hm | hm | hm | hm | hm
    · exact hc1 hm
    · exact hc2 hm
    · exact hc3 hm
    · exact hc4 hm
    · exact hc5 hm
    · exact hc6 hm
    · exact hc7 hm
    · exact hc8 hm

theorem pruned_blocks_facts (blocks : List Block) (block : Block) :
    (if (blocks ++ [block]).length > 255 then
        (blocks ++ [block]).drop ((blocks ++ [block]).length - 255)
      else blocks ++ [block]).length ≤ 255 ∧
    (if (blocks ++ [block]).length > 255 then
        (blocks ++ [block]).drop ((blocks ++ [block]).length - 255)
      else blocks ++ [block]).getLast? = some block := by
  have hl : (blocks ++ [block]).length = blocks.length + 1 := by simp
  constructor
  · split
    · rename_i hgt
      rw [List.length_drop, hl]
      rw [hl] at hgt
      omega
    · rename_i hle
      rw [hl] at hle ⊢
      omega
  · split
    · rename_i hgt
      rw [List.drop_append_eq_append_drop]
      have hz : (blocks ++ [block]).length - 255 - blocks.length = 0 := by
        simp only [List.length_append, List.length_cons, List.length_nil]
        omega
      rw [hz, List.drop_zero]
      exact List.getLast?_concat _
    · exact List.getLast?_concat _

/-- C1 (amended): with a non-empty chain, `state_transition` raises
`InvalidBlock` if the block's ommers list is non-empty, if
`header.excess_blob_gas` differs from `calculate_excess_blob_gas` of
header and parent, or if any of the eight header fields compared in
`header_mismatch` differs from the `ApplyBodyOutput` of `apply_body`;
when none of these holds and additionally `validate_header` succeeds and
`apply_body` returns normally, it returns normally, appends the block and
prunes the blocks list to at most the last 255 blocks. -/
theorem state_transition_checks (ext : Ext) (chain : BlockChain) (block : Block)
    (parent_block : Block) (hpb : chain.blocks.getLast? = some parent_block) :
    (block.ommers ≠ [] →
      (state_transition ext chain block).1 = .error .invalidBlock) ∧
    (block.header.excess_blob_gas ≠
        ext.calculate_excess_blob_gas block.header parent_block.header →
      (state_transition ext chain block).1 = .error .invalidBlock) ∧
    (∀ out s2, apply_body_call ext chain block parent_block = .ok (out, s2) →
      header_mismatch out block.header →
      (state_transition ext chain block).1 = .error .invalidBlock) ∧
    (∀ out s2,
      block.ommers = [] →
      block.header.excess_blob_gas =
        ext.calculate_excess_blob_gas block.header parent_block.header →
      validate_header ext block.header parent_block.header = .ok () →
      apply_body_call ext chain block parent_block = .ok (out, s2) →
      ¬ header_mismatch out block.header →
      state_transition ext chain block =
        (.ok (), { chain with
                   state := s2,
                   blocks := if (chain.blocks ++ [block]).length > 255 then
                       (chain.blocks ++ [block]).drop
                         ((chain.blocks ++ [block]).length - 255)
                     else chain.blocks ++ [block] }) ∧
      (state_transition ext chain block).2.blocks.length ≤ 255 ∧
      (state_transition ext chain block).2.blocks.getLast? = some block) := by
  refine ⟨?_, ?_, ?_, ?_⟩
  · intro homm
    rcases hres : state_transition ext chain block with ⟨r, c2⟩
    rcases state_transition_inv ext chain block r c2 hres with ⟨hr, _, _⟩ |
      ⟨hr, pb, out, s2, hpb', hx, hv, ho, happ, hnm, hc⟩
    · exact hr
    · exact absurd ho homm
  · intro hx1
    rcases hres : state_transition ext chain block with ⟨r, c2⟩
    rcases state_transition_inv ext chain block r c2 hres with ⟨hr, _, _⟩ |
      ⟨hr, pb, out, s2, hpb', hx, hv, ho, happ, hnm, hc⟩
    · exact hr
    · rw [hpb] at hpb'
      injection hpb' with he
      subst he
      exact absurd hx hx1
  · intro out s2 happly hm
    rcases hres : state_transition ext chain block with ⟨r, c2⟩
    rcases state_transition_inv ext chain block r c2 hres with ⟨hr, _, _⟩ |
      ⟨hr, pb, out', s2', hpb', hx, hv, ho, happ, hnm, hc⟩
    · exact hr
    · rw [hpb] at hpb'
      injection hpb' with he
      subst he
      rw [happly] at happ
      simp only [Except.ok.injEq, Prod.mk.injEq] at happ
      obtain ⟨h1, h2⟩ := happ
      subst h1
      exact absurd hm hnm
  · intro out s2 homm hx1 hval happly hnm
    rcases hres : state_transition ext chain block with ⟨r, c2⟩
    rcases state_transition_inv ext chain block r c2 hres with
      ⟨hr, hbl, hwhy⟩ | ⟨hr, pb, out', s2', hpb', hx, hv, ho, happ, hnm', hc⟩
    · exfalso
      rcases hwhy with hnone | ⟨pb, hpb', hwhy⟩
      · rw [hpb] at hnone
        exact absurd hnone (by simp)
      · rw [hpb] at hpb'
        injection hpb' with he
        subst he
        rcases hwhy with hbad | ⟨e, hbad⟩ | hbad | ⟨es, hbad⟩ |
          ⟨out'', s2'', hbad, hmis⟩
        · exact hbad hx1
        · rw [hval] at hbad
          exact absurd hbad (by simp)
        · exact hbad homm
        · rw [happly] at hbad
          exact absurd hbad (by simp)
        · rw [happly] at hbad
          simp only [Except.ok.injEq, Prod.mk.injEq] at hbad
          obtain ⟨h1, h2⟩ := hbad
          subst h1
          exact hnm hmis
    · rw [hpb] at hpb'
      injection hpb' with he
      subst he
      rw [happly] at happ
      simp only [Except.ok.injEq, Prod.mk.injEq] at happ
      obtain ⟨h1, h2⟩ := happ
      subst h1
      subst h2
      refine ⟨by rw [hr, hc], ?_, ?_⟩
      · rw [hc]
        exact (pruned_blocks_facts chain.blocks block).1
      · rw [hc]
        exact (pruned_blocks_facts chain.blocks block).2

/-- C2 (amended): if `state_transition` fails with `InvalidBlock`, the
chain's blocks list is exactly as it was before the call; the state,
however, may retain partial effects of header validation, system calls,
transaction execution or withdrawal processing — reverting them is the
caller's responsibility. -/
theorem state_transition_failure_preserves_blocks (ext : Ext) (chain : BlockChain)
    (block : Block) (e : Err)
    (h : (state_transition ext chain block).1 = .error e) :
    (state_transition ext chain block).2.blocks = chain.blocks := by
  rcases hres : state_transition ext chain block with ⟨r, c2⟩
  have hr' : r = .error e := by
    rw [hres] at h
    exact h
  rcases state_transition_inv ext chain block r c2 hres with ⟨_, hbl, _⟩ |
    ⟨hr, _⟩
  · exact hbl
  · rw [hr] at hr'
    exact absurd hr' (by simp)

instance header_mismatch_dec (out : ApplyBodyOutput) (h : Header) :
    Decidable (header_mismatch out h) := by
  unfold header_mismatch
  infer_instance

/-- A concrete parent header (gas limit 6000, gas used at target). -/
def parentHeaderW : Header :=
  { parent_hash := [], ommers_hash := List.replicate 32 0, coinbase := [],
    state_root := [], transactions_root := [], receipt_root := [], bloom := [],
    difficulty := 0, number := 0, gas_limit := 6000, gas_used := 3000,
    timestamp := 0, extra_data := [], prev_randao := [],
    nonce := List.replicate 8 0, base_fee_per_gas := 7, withdrawals_root := [],
    blob_gas_used := 0, excess_blob_gas := 0, parent_beacon_block_root := [],
    requests_hash := [] }

def parentBlockW : Block :=
  { header := parentHeaderW, transactions := [], ommers := [], withdrawals := [] }

/-- A concrete one-block chain on the empty state. -/
def chainW : BlockChain :=
  { blocks := [parentBlockW], state := stEmpty, chain_id := 1 }

/-- A fully consistent empty child block of `parentHeaderW` under the
trivial collaborators. -/
def headerC1ok : Header :=
  { parent_hash := List.replicate 32 0, ommers_hash := List.replicate 32 0,
    coinbase := [], state_root := [], transactions_root := [],
    receipt_root := [], bloom := [], difficulty := 0, number := 1,
    gas_limit := 6000, gas_used := 0, timestamp := 1, extra_data := [],
    prev_randao := [], nonce := List.replicate 8 0, base_fee_per_gas := 7,
    withdrawals_root := [], blob_gas_used := 0, excess_blob_gas := 0,
    parent_beacon_block_root := [], requests_hash := List.replicate 32 0 }

def blockC1ok : Block :=
  { header := headerC1ok, transactions := [], ommers := [], withdrawals := [] }

/-- Like `headerC1ok` but claiming `gas_used = 1`, which mismatches the
computed block gas use of 0. -/
def headerC2 : Header := { headerC1ok with gas_used := 1 }

def blockC2 : Block :=
  { header := headerC2, transactions := [], ommers := [], withdrawals := [] }

/-- A parent whose gas limit 0 makes every child fail the gas-limit check
inside `validate_header`. -/
def parentHeaderBad : Header := { parentHeaderW with gas_limit := 0, gas_used := 0 }

def parentBlockBad : Block :=
  { header := parentHeaderBad, transactions := [], ommers := [], withdrawals := [] }

def chainBad : BlockChain :=
  { blocks := [parentBlockBad], state := stEmpty, chain_id := 1 }

/-- Collaborators whose EVM writes balance 5 to address `[7]` on every
message call, exposing partial effects of a failed block. -/
def extMut : Ext :=
  { extTriv with
    process_message_call := fun _ _ s => (outW, s.set_account_balance [7] 5) }

/-- C1 counterexample: a block with no ommers, matching excess blob gas
and all eight compared header fields equal to the `apply_body` output is
still rejected, because `validate_header` fails (parent gas limit 0); the
claim's "otherwise it returns normally" is false as stated. -/
theorem state_transition_claimed_otherwise_false :
    blockC1ok.ommers = [] ∧
    chainBad.blocks.getLast? = some parentBlockBad ∧
    blockC1ok.header.excess_blob_gas =
      extTriv.calculate_excess_blob_gas blockC1ok.header parentBlockBad.header ∧
    apply_body_call extTriv chainBad blockC1ok parentBlockBad =
      .ok (abOutW, stEmpty) ∧
    ¬ header_mismatch abOutW blockC1ok.header ∧
    (state_transition extTriv chainBad blockC1ok).1 = .error .invalidBlock := by
  exact ⟨rfl, rfl, rfl, by decide, by decide, by decide⟩

/-- Witness for `state_transition_checks`: a fully valid empty block is
accepted and appended. -/
theorem state_transition_checks_witness :
    state_transition extTriv chainW blockC1ok =
      (.ok (), { chainW with
                 state := stEmpty,
                 blocks := if (chainW.blocks ++ [blockC1ok]).length > 255 then
                     (chainW.blocks ++ [blockC1ok]).drop
                       ((chainW.blocks ++ [blockC1ok]).length - 255)
                   else chainW.blocks ++ [blockC1ok] }) ∧
    (state_transition extTriv chainW blockC1ok).2.blocks.length ≤ 255 ∧
    (state_transition extTriv chainW blockC1ok).2.blocks.getLast? =
      some blockC1ok :=
  (state_transition_checks extTriv chainW blockC1ok parentBlockW rfl).2.2.2
    abOutW stEmpty rfl rfl (by decide) (by decide) (by decide)

/-- C2 counterexample: a failed `state_transition` (header `gas_used`
mismatch, found only after the body ran) leaves the predeploy-written
balance visible in the chain's state: address `[7]` holds 5 afterwards
although it held 0 before the call. -/
theorem state_transition_partial_commit_counterexample :
    (state_transition extMut chainW blockC2).1 = .error .invalidBlock ∧
    ((state_transition extMut chainW blockC2).2.state.get_account [7]).balance = 5 ∧
    (chainW.state.get_account [7]).balance = 0 := by
  exact ⟨by decide, by decide, by decide⟩

/-- Witness for `state_transition_failure_preserves_blocks`: the rejected
block `blockC2` leaves the blocks list unchanged. -/
theorem state_transition_failure_preserves_blocks_witness :
    (state_transition extTriv chainW blockC2).2.blocks = chainW.blocks :=
  state_transition_failure_preserves_blocks extTriv chainW blockC2 .invalidBlock
    (by decide)

end EthPrague
